import Mathlib

/-!
Shallow embedding of the track-plan core: the geometry provider
(`trackGeometry`), connector transform, snap detector and group mover
(`Canvas`), endpoint connection solver (`trackEndpoint`), connection helpers
(`connectionUtils`) and import validation (`projectSerialization`).
Numbers are modelled as real numbers; the JavaScript remainder, truncation
and rounding operations that appear in the source are modelled explicitly.
Theorems at the end check the specification claims against this embedding.
-/

noncomputable section

/-! ## Numeric helpers (JavaScript semantics made explicit) -/

/-- Truncation toward zero, as performed by the JavaScript `%` operator. -/
def jsTrunc (x : ℝ) : ℤ := if 0 ≤ x then ⌊x⌋ else ⌈x⌉

/-- JavaScript remainder `a % b`: the sign follows the dividend. -/
def jsMod (a b : ℝ) : ℝ := a - b * (jsTrunc (a / b) : ℝ)

/-- Degrees to radians, `toRad` from `geometryUtils.ts`. -/
def toRad (deg : ℝ) : ℝ := deg * Real.pi / 180

/-- Radians to degrees, `toDeg` from `geometryUtils.ts`. -/
def toDeg (rad : ℝ) : ℝ := rad * 180 / Real.pi

/-- The `normalizeAngle` function from `trackGeometry.ts`: reduce an angle in
degrees to the half-open interval `(-180, 180]`. -/
def normalizeAngle (deg : ℝ) : ℝ :=
  if jsMod deg 360 > 180 then jsMod deg 360 - 360
  else if jsMod deg 360 ≤ -180 then jsMod deg 360 + 360
  else jsMod deg 360

/-- The rounding unit `ROUND_PRECISION = 1e-6` from `trackEndpoint.ts`. -/
def roundPrecision : ℝ := 1 / 1000000

/-- The `roundValue` helper from `trackEndpoint.ts`:
`Math.round(value / ROUND_PRECISION) * ROUND_PRECISION`.  JavaScript
`Math.round` is floor of the value plus one half, which is Mathlib `round`. -/
def roundValue (v : ℝ) : ℝ := (round (v / roundPrecision) : ℝ) * roundPrecision

/-- The `Math.hypot` used for connector distances. -/
def hypot (a b : ℝ) : ℝ := Real.sqrt (a ^ 2 + b ^ 2)

/-- The `Math.atan2` function, modelled by the argument of the complex number
with real part `x` and imaginary part `y` (the two agree on all of ℝ²). -/
def atan2 (y x : ℝ) : ℝ := Complex.arg ⟨x, y⟩

lemma jsMod_sub_int (a : ℝ) : ∃ k : ℤ, a - jsMod a 360 = 360 * k :=
  ⟨jsTrunc (a / 360), by unfold jsMod; ring⟩

lemma jsMod_bounds (a : ℝ) : -360 < jsMod a 360 ∧ jsMod a 360 < 360 := by
  unfold jsMod jsTrunc
  by_cases h : 0 ≤ a / 360
  · rw [if_pos h]
    have h1 : ((⌊a / 360⌋ : ℤ) : ℝ) ≤ a / 360 := Int.floor_le _
    have h2 : a / 360 - 1 < ((⌊a / 360⌋ : ℤ) : ℝ) := Int.sub_one_lt_floor _
    constructor <;> nlinarith
  · rw [if_neg h]
    have h1 : a / 360 ≤ ((⌈a / 360⌉ : ℤ) : ℝ) := Int.le_ceil _
    have h2 : ((⌈a / 360⌉ : ℤ) : ℝ) < a / 360 + 1 := Int.ceil_lt_add_one _
    constructor <;> nlinarith

lemma normalizeAngle_bounds (deg : ℝ) :
    -180 < normalizeAngle deg ∧ normalizeAngle deg ≤ 180 := by
  unfold normalizeAngle
  obtain ⟨hl, hr⟩ := jsMod_bounds deg
  by_cases h1 : jsMod deg 360 > 180
  · rw [if_pos h1]; constructor <;> linarith
  · rw [if_neg h1]
    by_cases h2 : jsMod deg 360 ≤ -180
    · rw [if_pos h2]; constructor <;> linarith
    · rw [if_neg h2]; constructor <;> linarith

lemma normalizeAngle_sub_int (deg : ℝ) :
    ∃ k : ℤ, deg - normalizeAngle deg = 360 * k := by
  obtain ⟨k, hk⟩ := jsMod_sub_int deg
  unfold normalizeAngle
  by_cases h1 : jsMod deg 360 > 180
  · rw [if_pos h1]; exact ⟨k + 1, by push_cast; linarith⟩
  · rw [if_neg h1]
    by_cases h2 : jsMod deg 360 ≤ -180
    · rw [if_pos h2]; exact ⟨k - 1, by push_cast; linarith⟩
    · rw [if_neg h2]; exact ⟨k, hk⟩

lemma normalizeAngle_eq_of {x y : ℝ} (h1 : -180 < y) (h2 : y ≤ 180)
    (h3 : ∃ k : ℤ, x - y = 360 * k) : normalizeAngle x = y := by
  obtain ⟨k, hk⟩ := h3
  obtain ⟨m, hm⟩ := normalizeAngle_sub_int x
  obtain ⟨hb1, hb2⟩ := normalizeAngle_bounds x
  have hdiff : normalizeAngle x - y = 360 * ((k : ℝ) - (m : ℝ)) := by linarith
  have hlt : ((k - m : ℤ) : ℝ) < 1 := by push_cast; nlinarith
  have hgt : (-1 : ℝ) < ((k - m : ℤ) : ℝ) := by push_cast; nlinarith
  have hz : (k - m : ℤ) = 0 := by
    have h1' : (k - m : ℤ) < 1 := by exact_mod_cast hlt
    have h2' : (-1 : ℤ) < k - m := by exact_mod_cast hgt
    omega
  have : ((k : ℝ) - (m : ℝ)) = 0 := by
    have := congrArg (fun z : ℤ => (z : ℝ)) hz
    push_cast at this
    linarith
  linarith [hdiff, this.symm ▸ hdiff]

lemma normalizeAngle_congr {x y : ℝ} (h : ∃ k : ℤ, x - y = 360 * k) :
    normalizeAngle x = normalizeAngle y := by
  obtain ⟨k, hk⟩ := h
  obtain ⟨m, hm⟩ := normalizeAngle_sub_int y
  refine normalizeAngle_eq_of (normalizeAngle_bounds y).1 (normalizeAngle_bounds y).2
    ⟨k + m, ?_⟩
  push_cast
  linarith

lemma toDeg_toRad (x : ℝ) : toDeg (toRad x) = x := by
  unfold toDeg toRad
  field_simp

lemma roundValue_eq {v : ℝ} (n : ℤ) (h1 : (n : ℝ) ≤ v * 1000000 + 1 / 2)
    (h2 : v * 1000000 + 1 / 2 < (n : ℝ) + 1) : roundValue v = (n : ℝ) / 1000000 := by
  unfold roundValue roundPrecision
  have hv : v / (1 / 1000000) = v * 1000000 := by ring
  rw [hv, round_eq]
  have hfl : ⌊v * 1000000 + 1 / 2⌋ = n := Int.floor_eq_iff.mpr ⟨h1, h2⟩
  rw [hfl]
  ring

lemma atan2_zero_one : atan2 0 1 = 0 := by
  have h : (⟨1, 0⟩ : ℂ) = 1 := by
    apply Complex.ext <;> simp
  unfold atan2
  rw [h, Complex.arg_one]

lemma atan2_zero_neg_one : atan2 0 (-1) = Real.pi := by
  have h : (⟨-1, 0⟩ : ℂ) = -1 := by
    apply Complex.ext <;> simp
  unfold atan2
  rw [h, Complex.arg_neg_one]

lemma atan2_cos_sin (a : ℝ) :
    ∃ k : ℤ, atan2 (Real.sin a) (Real.cos a) = a - 2 * Real.pi * k := by
  have hpi := Real.pi_pos
  have h2pi : (0 : ℝ) < 2 * Real.pi := by linarith
  set k : ℤ := ⌈(a - Real.pi) / (2 * Real.pi)⌉ with hkdef
  have hk1 : (a - Real.pi) / (2 * Real.pi) ≤ (k : ℝ) := Int.le_ceil _
  have hk2 : (k : ℝ) < (a - Real.pi) / (2 * Real.pi) + 1 := Int.ceil_lt_add_one _
  have hA : a - Real.pi ≤ (k : ℝ) * (2 * Real.pi) := (div_le_iff₀ h2pi).mp hk1
  have hk2' : (k : ℝ) - 1 < (a - Real.pi) / (2 * Real.pi) := by linarith
  have hB : ((k : ℝ) - 1) * (2 * Real.pi) < a - Real.pi := (lt_div_iff₀ h2pi).mp hk2'
  have hb1 : -Real.pi < a - 2 * Real.pi * (k : ℝ) := by nlinarith
  have hb2 : a - 2 * Real.pi * (k : ℝ) ≤ Real.pi := by nlinarith
  have ha : a = (a - 2 * Real.pi * (k : ℝ)) + (k : ℝ) * (2 * Real.pi) := by ring
  have hcos : Real.cos a = Real.cos (a - 2 * Real.pi * (k : ℝ)) := by
    conv_lhs => rw [ha]
    rw [Real.cos_add_int_mul_two_pi]
  have hsin : Real.sin a = Real.sin (a - 2 * Real.pi * (k : ℝ)) := by
    conv_lhs => rw [ha]
    rw [Real.sin_add_int_mul_two_pi]
  refine ⟨k, ?_⟩
  unfold atan2
  rw [Complex.mk_eq_add_mul_I, hcos, hsin, Complex.ofReal_cos, Complex.ofReal_sin]
  exact Complex.arg_cos_add_sin_mul_I ⟨hb1, hb2⟩

/-! ## Data model (`types/trackSystem.ts`, `types/layout.ts`) -/

/-- A 2D vector, `Vec2` from `geometryUtils.ts`. -/
structure Vec2 where
  x : ℝ
  y : ℝ

inductive TrackComponentType where
  | straight
  | curve
  | switch
  | crossing
  | other
deriving DecidableEq

/-- Raw switch/crossing parameter record.  The source stores `meta` as an
untyped object and sniffs its shape; each field is modelled as `Option`,
where `none` stands for a field that is missing, not a number, or not a
finite number (`hasNumber` fails on all of those). -/
structure SwitchMetaRaw where
  variant : Option String := none
  direction : Option String := none
  straightLengthMm : Option ℝ := none
  branchRadiusMm : Option ℝ := none
  branchAngleDeg : Option ℝ := none
  innerRadiusMm : Option ℝ := none
  outerRadiusMm : Option ℝ := none
  angleDeg : Option ℝ := none
  branchOffsetMm : Option ℝ := none
  stubLengthMm : Option ℝ := none
  lengthMm : Option ℝ := none
  crossingAngleDeg : Option ℝ := none
  slipRadiusMm : Option ℝ := none

structure TrackComponentDefinition where
  id : String
  label : String
  type : TrackComponentType
  lengthMm : Option ℝ := none
  radiusMm : Option ℝ := none
  angleDeg : Option ℝ := none
  clockwise : Option Bool := none
  article : Option String := none
  meta : Option SwitchMetaRaw := none

/-- A local connector, `TrackConnector` from `types/trackSystem.ts` (the
current generation with the unit tangent `dir` and the gauge `widthMm`). -/
structure TrackConnector where
  xMm : ℝ
  yMm : ℝ
  dir : Vec2
  widthMm : ℝ
  directionDeg : ℝ

/-- Result of evaluating a definition.  `end` is a reserved word in Lean, so
the field is written `«end»`.  `extraConnectors` keeps the key/connector
pairs in object insertion order; the `buildPathD` render-only string builder
is not modelled. -/
structure ComponentGeometry where
  start : TrackConnector
  «end» : TrackConnector
  extraConnectors : List (String × TrackConnector) := []

structure WorldTransform where
  x : ℝ
  y : ℝ
  rotationDeg : ℝ

structure EndpointRef where
  itemId : String
  connectorKey : String
deriving DecidableEq

/-- A `Connection`: the source stores `endpoints` as a two-element array,
modelled here as the two fields `fst` and `snd`. -/
structure EndpointConnection where
  fst : EndpointRef
  snd : EndpointRef
deriving DecidableEq

structure PlacedItem where
  id : String
  trackSystemId : String
  componentId : String
  x : ℝ
  y : ℝ
  rotationDeg : ℝ
  isGrounded : Option Bool := none

structure TrackSystemDefinition where
  id : String
  name : String
  scale : String
  ratioValue : ℝ
  gaugeMm : ℝ
  parallelSpacingMm : ℝ
  moduleLengthMm : ℝ
  components : List TrackComponentDefinition

/-- Decorative canvas shapes from `types/layout.ts`. -/
inductive CanvasShape where
  | rectangle (id : String) (x y width height rotationDeg : ℝ)
  | circle (id : String) (x y width rotationDeg : ℝ)
  | text (id : String) (x y : ℝ) (content : String)
      (fontSize width height rotationDeg : ℝ)
  | dimension (id : String) (x y length rotationDeg offsetMm : ℝ)
      (label : Option String)

structure LayoutState where
  activeTrackSystemId : Option String
  trackSystems : List TrackSystemDefinition
  placedItems : List PlacedItem
  connections : List EndpointConnection
  shapes : List CanvasShape

/-! ## Geometry utilities (`geometryUtils.ts`) -/

def TRACK_EDGE_WIDTH_MM : ℝ := 28

def normalizeVec (v : Vec2) : Vec2 :=
  if hypot v.x v.y = 0 then ⟨0, 0⟩
  else ⟨v.x / hypot v.x v.y, v.y / hypot v.x v.y⟩

def rotateVec (v : Vec2) (angleRad : ℝ) : Vec2 :=
  ⟨v.x * Real.cos angleRad - v.y * Real.sin angleRad,
   v.x * Real.sin angleRad + v.y * Real.cos angleRad⟩

def transformPoint (p : Vec2) (rotationRad : ℝ) (pos : Vec2) : Vec2 :=
  ⟨(rotateVec p rotationRad).x + pos.x, (rotateVec p rotationRad).y + pos.y⟩

def transformDir (d : Vec2) (rotationRad : ℝ) : Vec2 := rotateVec d rotationRad

def angleOf (v : Vec2) : ℝ := atan2 v.y v.x

/-! ## Geometry provider (`trackGeometry.ts`, current generation) -/

def isSwitchDirectionStr (v : Option String) : Bool :=
  v == some ("left") || v == some ("right")

def isSimpleSwitchMeta (m : SwitchMetaRaw) : Bool :=
  m.variant == some ("simple-switch") && isSwitchDirectionStr m.direction &&
    m.straightLengthMm.isSome && m.branchRadiusMm.isSome && m.branchAngleDeg.isSome

def isCurvedSwitchMeta (m : SwitchMetaRaw) : Bool :=
  m.variant == some ("curved-switch") && isSwitchDirectionStr m.direction &&
    m.innerRadiusMm.isSome && m.outerRadiusMm.isSome && m.angleDeg.isSome

def isThreeWaySwitchMeta (m : SwitchMetaRaw) : Bool :=
  m.variant == some ("three-way") && m.straightLengthMm.isSome &&
    m.branchRadiusMm.isSome && m.branchAngleDeg.isSome && m.branchOffsetMm.isSome

def isYSwitchMeta (m : SwitchMetaRaw) : Bool :=
  m.variant == some ("y-switch") && m.stubLengthMm.isSome &&
    m.branchRadiusMm.isSome && m.branchAngleDeg.isSome

def isDoubleSlipMeta (m : SwitchMetaRaw) : Bool :=
  m.variant == some ("double-slip") && m.lengthMm.isSome &&
    m.crossingAngleDeg.isSome && m.slipRadiusMm.isSome

/-- The crossing meta validator checks the two numeric fields but no variant
tag, exactly as in the source. -/
def isCrossingMeta (m : SwitchMetaRaw) : Bool :=
  m.lengthMm.isSome && m.crossingAngleDeg.isSome

/-- The `makeConnector` helper: position plus a unit tangent derived from the
direction angle, with the fixed 28 mm gauge width. -/
def makeConnector (xMm yMm directionDeg : ℝ) : TrackConnector :=
  ⟨xMm, yMm,
   normalizeVec ⟨Real.cos (toRad directionDeg), Real.sin (toRad directionDeg)⟩,
   TRACK_EDGE_WIDTH_MM, directionDeg⟩

def getStraightGeometry (d : TrackComponentDefinition) : ComponentGeometry :=
  { start := makeConnector 0 0 180,
    «end» := makeConnector (d.lengthMm.getD 0) 0 0 }

def getCurveGeometry (d : TrackComponentDefinition) : ComponentGeometry :=
  let radius := d.radiusMm.getD 0
  let angleDeg := d.angleDeg.getD 0
  let clockwise := d.clockwise.getD false
  let theta := toRad angleDeg
  let directionSign : ℝ := if clockwise then -1 else 1
  { start := makeConnector 0 0 (0 - 180 + angleDeg),
    «end» := makeConnector (radius * Real.sin theta)
      (directionSign * (radius - radius * Real.cos theta)) 0 }

/-- Simple switch geometry; on the fallback path (`meta = none`) the
defaults 239.07 / 907.97 / 15 stand in for missing definition fields and the
branch side comes from the uppercased id containing the letter L. -/
def getSimpleSwitchGeometry (d : TrackComponentDefinition)
    (meta : Option SwitchMetaRaw) : ComponentGeometry :=
  let straightLength := ((meta.bind fun m => m.straightLengthMm) <|> d.lengthMm).getD 239.07
  let radius := ((meta.bind fun m => m.branchRadiusMm) <|> d.radiusMm).getD 907.97
  let branchAngleDeg := ((meta.bind fun m => m.branchAngleDeg) <|> d.angleDeg).getD 15
  let thetaRad := toRad branchAngleDeg
  let direction : String := (meta.bind fun m => m.direction).getD
    (if (d.id.map Char.toUpper).contains ('L') then ("left") else ("right"))
  let directionSign : ℝ := if direction = ("left") then 1 else -1
  let branchEndX := radius * Real.sin thetaRad
  let branchEndY := directionSign * (radius - radius * Real.cos thetaRad)
  let branchDirectionDeg :=
    if |radius - 907.97| < 0.01 ∧ |branchAngleDeg - 15| < 0.01 then
      directionSign * branchAngleDeg
    else 0
  let branchConnector := makeConnector branchEndX branchEndY branchDirectionDeg
  { start := makeConnector 0 0 180,
    «end» := makeConnector straightLength 0 0,
    extraConnectors := [(("branch"), branchConnector), (("diverging"), branchConnector)] }

/-- Curved switch geometry.  The source receives a statically typed validated
record here; the `getD` defaults are never reached because the dispatcher
only calls this after `isCurvedSwitchMeta` succeeded. -/
def getCurvedSwitchGeometry (m : SwitchMetaRaw) : ComponentGeometry :=
  let angleDeg := m.angleDeg.getD 0
  let direction := m.direction.getD ("right")
  let theta := toRad angleDeg
  let directionSign : ℝ := if direction = ("left") then 1 else -1
  let buildEnd : ℝ → TrackConnector := fun radius =>
    makeConnector (radius * Real.sin theta)
      (directionSign * (radius - radius * Real.cos theta)) 0
  { start := makeConnector 0 0 (180 - 180 + angleDeg),
    «end» := buildEnd (m.outerRadiusMm.getD 0),
    extraConnectors := [(("inner"), buildEnd (m.innerRadiusMm.getD 0))] }

def getThreeWaySwitchGeometry (m : SwitchMetaRaw) : ComponentGeometry :=
  let straightLengthMm := m.straightLengthMm.getD 0
  let branchRadiusMm := m.branchRadiusMm.getD 0
  let branchAngleDeg := m.branchAngleDeg.getD 0
  let branchOffsetMm := m.branchOffsetMm.getD 0
  let theta := toRad branchAngleDeg
  let buildBranch : ℝ → TrackConnector := fun sign =>
    makeConnector (branchOffsetMm + branchRadiusMm * Real.sin theta)
      (sign * (branchRadiusMm - branchRadiusMm * Real.cos theta))
      (sign * branchAngleDeg)
  { start := makeConnector 0 0 180,
    «end» := makeConnector straightLengthMm 0 0,
    extraConnectors := [(("leftBranch"), buildBranch (-1)), (("rightBranch"), buildBranch 1)] }

def getYSwitchGeometry (m : SwitchMetaRaw) : ComponentGeometry :=
  let stubLengthMm := m.stubLengthMm.getD 0
  let branchRadiusMm := m.branchRadiusMm.getD 0
  let branchAngleDeg := m.branchAngleDeg.getD 0
  let theta := toRad branchAngleDeg
  let buildBranch : ℝ → TrackConnector := fun sign =>
    makeConnector (stubLengthMm + branchRadiusMm * Real.sin theta)
      (sign * (branchRadiusMm - branchRadiusMm * Real.cos theta)) 0
  { start := makeConnector 0 0 180,
    «end» := makeConnector stubLengthMm 0 0,
    extraConnectors := [(("left"), buildBranch 1), (("right"), buildBranch (-1))] }

def getDoubleSlipGeometry (m : SwitchMetaRaw) : ComponentGeometry :=
  let lengthMm := m.lengthMm.getD 0
  let crossingAngleDeg := m.crossingAngleDeg.getD 0
  let half := lengthMm / 2
  let angleRad := toRad crossingAngleDeg
  let dx := half * Real.cos angleRad
  let dy := half * Real.sin angleRad
  { start := makeConnector 0 0 180,
    «end» := makeConnector lengthMm 0 0,
    extraConnectors :=
      [(("crossStart"), makeConnector (half - dx) (-dy) (180 + crossingAngleDeg)),
       (("crossEnd"), makeConnector (half + dx) dy crossingAngleDeg)] }

def getCrossingGeometry (m : SwitchMetaRaw) : ComponentGeometry :=
  let lengthMm := m.lengthMm.getD 0
  let crossingAngleDeg := m.crossingAngleDeg.getD 0
  let half := lengthMm / 2
  let angleRad := toRad crossingAngleDeg
  let dx := half * Real.cos angleRad
  let dy := half * Real.sin angleRad
  { start := makeConnector 0 0 180,
    «end» := makeConnector lengthMm 0 0,
    extraConnectors :=
      [(("crossStart"), makeConnector (half - dx) (-dy) (180 + crossingAngleDeg)),
       (("crossEnd"), makeConnector (half + dx) dy crossingAngleDeg)] }

/-- The `getComponentGeometry` dispatcher.  A `meta` that is absent or not an
object makes every validator fail, which the `none` branch mirrors. -/
def getComponentGeometry (d : TrackComponentDefinition) : ComponentGeometry :=
  match d.type with
  | .straight => getStraightGeometry d
  | .curve => getCurveGeometry d
  | .switch =>
    match d.meta with
    | some m =>
      if isSimpleSwitchMeta m then getSimpleSwitchGeometry d (some m)
      else if isCurvedSwitchMeta m then getCurvedSwitchGeometry m
      else if isThreeWaySwitchMeta m then getThreeWaySwitchGeometry m
      else if isYSwitchMeta m then getYSwitchGeometry m
      else if isDoubleSlipMeta m then getDoubleSlipGeometry m
      else getSimpleSwitchGeometry d none
    | none => getSimpleSwitchGeometry d none
  | .crossing =>
    match d.meta with
    | some m => if isCrossingMeta m then getCrossingGeometry m else getStraightGeometry d
    | none => getStraightGeometry d
  | .other => getStraightGeometry { d with lengthMm := some (d.lengthMm.getD 10) }

/-- The `transformConnector` function: rotate the local position and tangent
by the pose rotation, translate, and recompute `directionDeg` via `atan2`. -/
def transformConnector (c : TrackConnector) (t : WorldTransform) : TrackConnector :=
  let rad := toRad t.rotationDeg
  let dir := normalizeVec ⟨c.dir.x * Real.cos rad - c.dir.y * Real.sin rad,
                           c.dir.x * Real.sin rad + c.dir.y * Real.cos rad⟩
  { xMm := c.xMm * Real.cos rad - c.yMm * Real.sin rad + t.x,
    yMm := c.xMm * Real.sin rad + c.yMm * Real.cos rad + t.y,
    dir := dir,
    widthMm := c.widthMm,
    directionDeg := normalizeAngle (toDeg (atan2 dir.y dir.x)) }

def rotatePointLocal (x y rotationDeg : ℝ) : Vec2 :=
  ⟨x * Real.cos (toRad rotationDeg) - y * Real.sin (toRad rotationDeg),
   x * Real.sin (toRad rotationDeg) + y * Real.cos (toRad rotationDeg)⟩

/-! ## Endpoint poses and the connection solver (`trackEndpoint.ts`) -/

structure EndpointPose where
  position : Vec2
  direction : Vec2
  directionDeg : ℝ

def getEndpointPose (item : PlacedItem) (connector : TrackConnector) : EndpointPose :=
  let rotationRad := toRad item.rotationDeg
  let position := transformPoint ⟨connector.xMm, connector.yMm⟩ rotationRad ⟨item.x, item.y⟩
  let direction := normalizeVec (transformDir connector.dir rotationRad)
  ⟨position, direction, normalizeAngle (toDeg (angleOf direction))⟩

structure ConnectionTransform where
  position : Vec2
  rotationDeg : ℝ

/-- The `computeConnectionTransform` solver: desired direction is the
anchor's reversed tangent, the rotation is solved from the moving connector's
local tangent, and position and rotation are rounded to the 1e-6 grid.  The
source additionally recomputes the alignment error and logs a console
warning when it exceeds 1e-3; that diagnostic does not affect the returned
value and is not modelled. -/
def computeConnectionTransform (anchorItem : PlacedItem)
    (anchorConnector movingConnector : TrackConnector) : ConnectionTransform :=
  let anchorPose := getEndpointPose anchorItem anchorConnector
  let targetDir : Vec2 := ⟨-anchorPose.direction.x, -anchorPose.direction.y⟩
  let angleTarget := angleOf targetDir
  let movingDirLocal := normalizeVec movingConnector.dir
  let angleMovingLocal := angleOf movingDirLocal
  let rotationRad := angleTarget - angleMovingLocal
  let rotatedLocal := transformPoint ⟨movingConnector.xMm, movingConnector.yMm⟩ rotationRad ⟨0, 0⟩
  { position := ⟨roundValue (anchorPose.position.x - rotatedLocal.x),
                 roundValue (anchorPose.position.y - rotatedLocal.y)⟩,
    rotationDeg := roundValue (normalizeAngle (toDeg rotationRad)) }

/-! ## Connection helpers (`connectionUtils.ts`) -/

def endpointsEqual (a b : EndpointRef) : Bool :=
  a.itemId == b.itemId && a.connectorKey == b.connectorKey

def connectionHasEndpoint (c : EndpointConnection) (e : EndpointRef) : Bool :=
  endpointsEqual c.fst e || endpointsEqual c.snd e

def connectionMatchesEndpoints (c : EndpointConnection) (eps : List EndpointRef) : Bool :=
  match eps with
  | [first, second] =>
    (endpointsEqual c.fst first && endpointsEqual c.snd second) ||
      (endpointsEqual c.fst second && endpointsEqual c.snd first)
  | _ => false

/-! ## Canvas state helpers (`Canvas.tsx`) -/

/-- Lookup in the `itemMap` built by repeated `Map.set`: the last insertion
for a duplicated id wins, hence the reversed search. -/
def itemMapGet (L : LayoutState) (itemId : String) : Option PlacedItem :=
  L.placedItems.reverse.find? (fun i => i.id == itemId)

def isItemGrounded (L : LayoutState) (itemId : String) : Bool :=
  ((itemMapGet L itemId).bind fun i => i.isGrounded).getD false

def isEndpointConnected (L : LayoutState) (itemId connectorKey : String) : Bool :=
  L.connections.any (fun c => connectionHasEndpoint c ⟨itemId, connectorKey⟩)

def isItemConnected (L : LayoutState) (itemId : String) : Bool :=
  L.connections.any (fun c => c.fst.itemId == itemId || c.snd.itemId == itemId)

/-- Adjacency built from the connection list (`connectionGraph`); self-loop
connections contribute no edge. -/
def connectionNeighbors (connections : List EndpointConnection) (id : String) : List String :=
  connections.foldl (fun acc c =>
    if c.fst.itemId == c.snd.itemId then acc
    else if c.fst.itemId == id then acc ++ [c.snd.itemId]
    else if c.snd.itemId == id then acc ++ [c.fst.itemId]
    else acc) []

/-- Breadth-first traversal with an explicit queue, as in
`getConnectedGroupIds`.  The `while` loop is modelled with fuel; the fuel
passed by `getConnectedGroupIds` dominates the number of loop iterations,
which is bounded by the initial queue entry plus one queue push per
connection-list entry per visited node. -/
def bfsGroup (neighbors : String → List String) :
    Nat → List String → List String → List String
  | 0, _, result => result
  | _ + 1, [], result => result
  | fuel + 1, current :: queue, result =>
    if current ∈ result then bfsGroup neighbors fuel queue result
    else bfsGroup neighbors fuel (queue ++ neighbors current) (result ++ [current])

def groupFuel (L : LayoutState) : Nat :=
  (2 * L.connections.length + 1) * (L.connections.length + 1)

def getConnectedGroupIds (L : LayoutState) (itemId : String) : List String :=
  let res := bfsGroup (connectionNeighbors L.connections) (groupFuel L) [itemId] []
  if res.isEmpty then [itemId] else res

/-- Lookup in the `componentMap` (`Map.set` per component, last id wins). -/
def componentFind (ts : TrackSystemDefinition) (componentId : String) :
    Option TrackComponentDefinition :=
  ts.components.reverse.find? (fun c => c.id == componentId)

/-- The `geometryCache` holds `getComponentGeometry` of every component in
the map, so a cache hit is exactly a successful component lookup. -/
def geometryFor (ts : TrackSystemDefinition) (componentId : String) :
    Option ComponentGeometry :=
  (componentFind ts componentId).map getComponentGeometry

def listConnectorEntries (g : ComponentGeometry) : List (String × TrackConnector) :=
  (("start"), g.start) :: (("end"), g.«end») :: g.extraConnectors

def getConnectorByKey (g : ComponentGeometry) (key : String) : Option TrackConnector :=
  if key = ("start") then some g.start
  else if key = ("end") then some g.«end»
  else (g.extraConnectors.find? (fun e => e.1 == key)).map (fun e => e.2)

/-! ## Snap detector (`computeSnappedTransform` in `Canvas.tsx`) -/

def SNAP_DISTANCE_MM : ℝ := 8

def ANGLE_TOLERANCE_DEG : ℝ := 15

/-- One candidate pair inspected by the nested loops of
`computeSnappedTransform`: a connector of the dragged item under the
tentative pose against a connector of another placed item under that item's
committed pose. -/
structure SnapCandidate where
  movingKey : String
  movingLocal : TrackConnector
  movingWorld : TrackConnector
  targetItemId : String
  targetKey : String
  targetWorld : TrackConnector

def candDistance (c : SnapCandidate) : ℝ :=
  hypot (c.movingWorld.xMm - c.targetWorld.xMm) (c.movingWorld.yMm - c.targetWorld.yMm)

def candAngleDiff (c : SnapCandidate) : ℝ :=
  normalizeAngle (c.movingWorld.directionDeg - (c.targetWorld.directionDeg + 180))

/-- The alignment pose computed for a candidate inside the loop body. -/
def candTransform (tentative : WorldTransform) (c : SnapCandidate) : WorldTransform :=
  let desiredDirection := c.targetWorld.directionDeg + 180
  let deltaRotation := normalizeAngle (desiredDirection - c.movingWorld.directionDeg)
  let rotationDeg := normalizeAngle (tentative.rotationDeg + deltaRotation)
  let rotatedLocal := rotatePointLocal c.movingLocal.xMm c.movingLocal.yMm rotationDeg
  ⟨c.targetWorld.xMm - rotatedLocal.x, c.targetWorld.yMm - rotatedLocal.y, rotationDeg⟩

structure SnapBest where
  distance : ℝ
  transform : WorldTransform
  movingEp : EndpointRef
  targetEp : EndpointRef

def mkSnapBest (itemId : String) (tentative : WorldTransform) (c : SnapCandidate) : SnapBest :=
  ⟨candDistance c, candTransform tentative c,
   ⟨itemId, c.movingKey⟩, ⟨c.targetItemId, c.targetKey⟩⟩

/-- The loop body: reject the pair beyond the 8 mm / 15 degree tolerance,
otherwise keep it when it is strictly closer than the best so far (the
initial best distance is positive infinity, modelled by the `none` case). -/
def snapStep (itemId : String) (tentative : WorldTransform)
    (best : Option SnapBest) (c : SnapCandidate) : Option SnapBest :=
  if candDistance c > SNAP_DISTANCE_MM then best
  else if |candAngleDiff c| > ANGLE_TOLERANCE_DEG then best
  else match best with
    | none => some (mkSnapBest itemId tentative c)
    | some b =>
      if candDistance c < b.distance then some (mkSnapBest itemId tentative c) else best

/-- All candidate pairs, in the iteration order of the source's nested
`forEach` loops: the dragged item itself, items of another track system and
items without a catalog geometry contribute none. -/
def snapCandidates (L : LayoutState) (ts : TrackSystemDefinition)
    (itemId : String) (tentative : WorldTransform) : List SnapCandidate :=
  match L.placedItems.find? (fun p => p.id == itemId) with
  | none => []
  | some item =>
    match geometryFor ts item.componentId with
    | none => []
    | some geometry =>
      let movingConnectors := (listConnectorEntries geometry).map
        (fun e => (e.1, e.2, transformConnector e.2 tentative))
      L.placedItems.flatMap (fun other =>
        if other.id == itemId then []
        else if other.trackSystemId != ts.id then []
        else match geometryFor ts other.componentId with
          | none => []
          | some otherGeometry =>
            movingConnectors.flatMap (fun mc =>
              (listConnectorEntries otherGeometry).map (fun oc =>
                ⟨mc.1, mc.2.1, mc.2.2, other.id, oc.1,
                 transformConnector oc.2 ⟨other.x, other.y, other.rotationDeg⟩⟩)))

structure SnapResult where
  transform : WorldTransform
  movingEp : EndpointRef
  targetEp : EndpointRef

def computeSnappedTransform (L : LayoutState) (ts : TrackSystemDefinition)
    (itemId : String) (tentative : WorldTransform) : Option SnapResult :=
  match (snapCandidates L ts itemId tentative).foldl (snapStep itemId tentative) none with
  | none => none
  | some b => some ⟨b.transform, b.movingEp, b.targetEp⟩

/-- The pose used by the drag preview: `snapped?.transform ?? tentative`. -/
def nextDragTransform (L : LayoutState) (ts : TrackSystemDefinition)
    (itemId : String) (tentative : WorldTransform) : WorldTransform :=
  match computeSnappedTransform L ts itemId tentative with
  | some s => s.transform
  | none => tentative

/-! ## Group mover and connect/rotate/drag operations (`Canvas.tsx`) -/

/-- The per-item update of the group move inside `connectSelectedEndpoints`
and `autoConnectSnappedEndpoints`: position relative to the pivot's previous
position, rotated by the rotation delta, re-anchored at the pivot's new
position; the rotation delta is added to the item's own rotation. -/
def moveGroupItem (pivotBefore pivotAfter : Vec2) (deltaRotation : ℝ)
    (item : PlacedItem) : PlacedItem :=
  let rotated := rotatePointLocal (item.x - pivotBefore.x) (item.y - pivotBefore.y) deltaRotation
  { item with
    x := pivotAfter.x + rotated.x,
    y := pivotAfter.y + rotated.y,
    rotationDeg := normalizeAngle (item.rotationDeg + deltaRotation) }

def moveGroupItems (groupIds : List String) (pivotBefore pivotAfter : Vec2)
    (deltaRotation : ℝ) (items : List PlacedItem) : List PlacedItem :=
  items.map (fun item =>
    if item.id ∈ groupIds then moveGroupItem pivotBefore pivotAfter deltaRotation item
    else item)

/-- The fixed/moving decision of `connectSelectedEndpoints`: a grounded side
is fixed, otherwise the larger connected group is fixed, with the last
user-selected endpoint (or the first endpoint) moving on a tie. -/
def chooseFixedMoving (L : LayoutState) (selectedEndpoints : List EndpointRef)
    (selectedItemId : Option String) (firstRef secondRef : EndpointRef) :
    EndpointRef × EndpointRef :=
  let firstGrounded := isItemGrounded L firstRef.itemId
  let secondGrounded := isItemGrounded L secondRef.itemId
  if firstGrounded && !secondGrounded then (firstRef, secondRef)
  else if !firstGrounded && secondGrounded then (secondRef, firstRef)
  else
    let firstGroup := getConnectedGroupIds L firstRef.itemId
    let secondGroup := getConnectedGroupIds L secondRef.itemId
    if firstGroup.length > secondGroup.length then (firstRef, secondRef)
    else if secondGroup.length > firstGroup.length then (secondRef, firstRef)
    else
      let selectedRefOpt : Option EndpointRef := match selectedItemId with
        | some sid => selectedEndpoints.find? (fun ep => ep.itemId == sid)
        | none => none
      let selectedRef := selectedRefOpt.getD firstRef
      if selectedRef = firstRef then (secondRef, firstRef) else (firstRef, selectedRef)

/-- The `connectSelectedEndpoints` operation.  Every early return of the
source yields the unchanged layout. -/
def connectSelectedEndpoints (L : LayoutState) (ts : TrackSystemDefinition)
    (selectedEndpoints : List EndpointRef) (selectedItemId : Option String) :
    LayoutState :=
  match selectedEndpoints with
  | [firstRef, secondRef] =>
    if firstRef.itemId = secondRef.itemId then L
    else
      let fm := chooseFixedMoving L selectedEndpoints selectedItemId firstRef secondRef
      let fixedRef := fm.1
      let movingRef := fm.2
      if movingRef.itemId = fixedRef.itemId then L
      else if isItemGrounded L movingRef.itemId then L
      else
        match L.placedItems.find? (fun i => i.id == fixedRef.itemId),
              L.placedItems.find? (fun i => i.id == movingRef.itemId) with
        | some fixedItem, some movingItem =>
          if fixedItem.trackSystemId ≠ ts.id ∨ movingItem.trackSystemId ≠ ts.id then L
          else
            match geometryFor ts fixedItem.componentId,
                  geometryFor ts movingItem.componentId with
            | some fixedGeometry, some movingGeometry =>
              match getConnectorByKey fixedGeometry fixedRef.connectorKey,
                    getConnectorByKey movingGeometry movingRef.connectorKey with
              | some fixedConnectorLocal, some movingConnectorLocal =>
                if isEndpointConnected L fixedRef.itemId fixedRef.connectorKey ||
                    isEndpointConnected L movingRef.itemId movingRef.connectorKey then L
                else if |fixedConnectorLocal.widthMm - movingConnectorLocal.widthMm| > 1 / 1000 then L
                else
                  let transform :=
                    computeConnectionTransform fixedItem fixedConnectorLocal movingConnectorLocal
                  let movingGroupIds := getConnectedGroupIds L movingRef.itemId
                  let deltaRotation :=
                    normalizeAngle (transform.rotationDeg - movingItem.rotationDeg)
                  { L with
                    placedItems := moveGroupItems movingGroupIds
                      ⟨movingItem.x, movingItem.y⟩ transform.position deltaRotation
                      L.placedItems,
                    connections := L.connections ++ [⟨fixedRef, movingRef⟩] }
              | _, _ => L
            | _, _ => L
        | _, _ => L
  | _ => L

/-- The `autoConnectSnappedEndpoints` operation run on pointer-up for a
snapped pair; the boolean reports whether a connection was created. -/
def autoConnectSnappedEndpoints (L : LayoutState) (ts : TrackSystemDefinition)
    (movingRef targetRef : EndpointRef) : Bool × LayoutState :=
  if movingRef.itemId = targetRef.itemId then (false, L)
  else if targetRef.itemId ∈ getConnectedGroupIds L movingRef.itemId then (false, L)
  else if isEndpointConnected L movingRef.itemId movingRef.connectorKey ||
      isEndpointConnected L targetRef.itemId targetRef.connectorKey then (false, L)
  else if isItemGrounded L movingRef.itemId then (false, L)
  else
    match L.placedItems.find? (fun i => i.id == movingRef.itemId),
          L.placedItems.find? (fun i => i.id == targetRef.itemId) with
    | some movingItem, some targetItem =>
      if movingItem.trackSystemId ≠ ts.id ∨ targetItem.trackSystemId ≠ ts.id then (false, L)
      else
        match geometryFor ts movingItem.componentId,
              geometryFor ts targetItem.componentId with
        | some movingGeometry, some targetGeometry =>
          match getConnectorByKey movingGeometry movingRef.connectorKey,
                getConnectorByKey targetGeometry targetRef.connectorKey with
          | some movingConnectorLocal, some targetConnectorLocal =>
            if |targetConnectorLocal.widthMm - movingConnectorLocal.widthMm| > 1 / 1000 then
              (false, L)
            else
              let transform :=
                computeConnectionTransform targetItem targetConnectorLocal movingConnectorLocal
              let movingGroupIds := getConnectedGroupIds L movingRef.itemId
              let deltaRotation :=
                normalizeAngle (transform.rotationDeg - movingItem.rotationDeg)
              (true,
               { L with
                 placedItems := moveGroupItems movingGroupIds
                   ⟨movingItem.x, movingItem.y⟩ transform.position deltaRotation
                   L.placedItems,
                 connections := L.connections ++ [⟨targetRef, movingRef⟩] })
          | _, _ => (false, L)
        | _, _ => (false, L)
    | _, _ => (false, L)

/-- The `rotateSelected` operation: a no-op for a connected or grounded
selection, otherwise rotate in place (around the selected endpoint when one
belongs to the item). -/
def rotateSelected (L : LayoutState) (ts : TrackSystemDefinition)
    (selectedItemId : Option String) (selectedEndpoints : List EndpointRef)
    (deltaDeg : ℝ) : LayoutState :=
  match selectedItemId with
  | none => L
  | some sid =>
    if isItemConnected L sid || isItemGrounded L sid then L
    else
      match L.placedItems.find? (fun i => i.id == sid) with
      | none => L
      | some currentItem =>
        let newRotationDeg := normalizeAngle (currentItem.rotationDeg + deltaDeg)
        let pivotEndpoint := selectedEndpoints.find? (fun ep => ep.itemId == sid)
        let geometry := geometryFor ts currentItem.componentId
        let newPos : Vec2 :=
          match pivotEndpoint, geometry with
          | some pe, some g =>
            match getConnectorByKey g pe.connectorKey with
            | some localConnector =>
              let pivotWorld := transformConnector localConnector
                ⟨currentItem.x, currentItem.y, currentItem.rotationDeg⟩
              let rotatedLocal :=
                rotatePointLocal localConnector.xMm localConnector.yMm newRotationDeg
              ⟨pivotWorld.xMm - rotatedLocal.x, pivotWorld.yMm - rotatedLocal.y⟩
            | none => ⟨currentItem.x, currentItem.y⟩
          | _, _ => ⟨currentItem.x, currentItem.y⟩
        { L with placedItems := L.placedItems.map (fun it =>
            if it.id == sid then
              { it with x := newPos.x, y := newPos.y, rotationDeg := newRotationDeg }
            else it) }

/-- The pointer-up commit when no connection was created: a whole-group
translation when the drag moved at all, otherwise a single-item pose write
from the drag preview. -/
def commitMove (L : LayoutState) (groupIds : List String) (dragGroupDelta : Vec2)
    (nextTransform : WorldTransform) (itemId : String) : LayoutState :=
  if |dragGroupDelta.x| > 1 / 1000000 ∨ |dragGroupDelta.y| > 1 / 1000000 then
    { L with placedItems := L.placedItems.map (fun it =>
        if it.id ∈ groupIds then
          { it with x := it.x + dragGroupDelta.x, y := it.y + dragGroupDelta.y }
        else it) }
  else
    { L with placedItems := L.placedItems.map (fun it =>
        if it.id == itemId then
          { it with
            x := nextTransform.x,
            y := nextTransform.y,
            rotationDeg := normalizeAngle nextTransform.rotationDeg }
        else it) }

/-- One whole drag gesture: the grounded-group gate of
`handleItemPointerDown`, one `handlePointerMove` with the given pointer
delta (tentative pose, snap, preview), and the `handlePointerUp` commit
(auto-connect of the snapped pair, else the move commit). -/
def dragOperation (L : LayoutState) (ts : TrackSystemDefinition)
    (itemId : String) (delta : Vec2) : LayoutState :=
  match L.placedItems.find? (fun i => i.id == itemId) with
  | none => L
  | some item =>
    let groupIds := getConnectedGroupIds L itemId
    if groupIds.any (fun gid => isItemGrounded L gid) then L
    else
      let tentative : WorldTransform := ⟨item.x + delta.x, item.y + delta.y, item.rotationDeg⟩
      let snapped := computeSnappedTransform L ts itemId tentative
      let nextTransform := match snapped with
        | some s => s.transform
        | none => tentative
      let dragGroupDelta : Vec2 := ⟨nextTransform.x - item.x, nextTransform.y - item.y⟩
      match snapped with
      | some s =>
        let res := autoConnectSnappedEndpoints L ts s.movingEp s.targetEp
        if res.1 then res.2 else commitMove L groupIds dragGroupDelta nextTransform itemId
      | none => commitMove L groupIds dragGroupDelta nextTransform itemId

/-! ## Import validation (`projectSerialization.ts`)

Raw records model the parsed JSON before validation.  A field of type
`Option T` is `none` when the JSON field is missing, has the wrong type, or
(for numbers) is not finite, which is exactly what the `isString` /
`isFiniteNumber` / boolean checks of the source reject.  A list field of
type `Option (List _)` is `none` when the JSON value is not an array. -/

structure RawEndpointRef where
  itemId : Option String := none
  connectorKey : Option String := none

structure RawConnection where
  endpoints : Option (List RawEndpointRef) := none

structure RawComponent where
  id : Option String := none
  label : Option String := none
  typeTag : Option String := none
  lengthMm : Option ℝ := none
  radiusMm : Option ℝ := none
  angleDeg : Option ℝ := none
  clockwise : Option Bool := none
  article : Option String := none
  meta : Option SwitchMetaRaw := none

structure RawTrackSystem where
  id : Option String := none
  name : Option String := none
  scale : Option String := none
  ratioValue : Option ℝ := none
  gaugeMm : Option ℝ := none
  parallelSpacingMm : Option ℝ := none
  moduleLengthMm : Option ℝ := none
  components : Option (List RawComponent) := none

structure RawShape where
  typeTag : Option String := none
  id : Option String := none
  x : Option ℝ := none
  y : Option ℝ := none
  width : Option ℝ := none
  height : Option ℝ := none
  rotationDeg : Option ℝ := none
  fontSize : Option ℝ := none
  content : Option String := none
  length : Option ℝ := none
  offsetMm : Option ℝ := none
  label : Option String := none

structure RawPlacedItem where
  id : Option String := none
  trackSystemId : Option String := none
  componentId : Option String := none
  x : Option ℝ := none
  y : Option ℝ := none
  rotationDeg : Option ℝ := none
  isGrounded : Option Bool := none

structure RawLayout where
  activeTrackSystemId : Option String := none
  trackSystems : Option (List RawTrackSystem) := none
  placedItems : Option (List RawPlacedItem) := none
  connections : Option (List RawConnection) := none
  shapes : Option (List RawShape) := none

/-- The `TRACK_COMPONENT_TYPES` whitelist of the serializer; note it has no
crossing entry. -/
def decodeTrackComponentType (s : String) : Option TrackComponentType :=
  if s = ("straight") then some .straight
  else if s = ("curve") then some .curve
  else if s = ("switch") then some .switch
  else if s = ("other") then some .other
  else none

def validateEndpointRef (raw : RawEndpointRef) : Option EndpointRef :=
  match raw.itemId, raw.connectorKey with
  | some itemId, some connectorKey => some ⟨itemId, connectorKey⟩
  | _, _ => none

def validateConnection (raw : RawConnection) : Option EndpointConnection :=
  match raw.endpoints with
  | none => none
  | some eps =>
    if eps.length ≠ 2 then none
    else
      match eps.filterMap validateEndpointRef with
      | [a, b] => some ⟨a, b⟩
      | _ => none

def validateTrackComponent (raw : RawComponent) : Option TrackComponentDefinition :=
  match raw.id, raw.label, raw.typeTag.bind decodeTrackComponentType with
  | some id, some label, some ctype =>
    some { id := id, label := label, type := ctype,
           lengthMm := raw.lengthMm, radiusMm := raw.radiusMm,
           angleDeg := raw.angleDeg, clockwise := raw.clockwise,
           article := raw.article, meta := raw.meta }
  | _, _, _ => none

def validateTrackSystem (raw : RawTrackSystem) : Option TrackSystemDefinition :=
  match raw.id, raw.name, raw.scale with
  | some id, some name, some scale =>
    match raw.ratioValue, raw.gaugeMm, raw.parallelSpacingMm, raw.moduleLengthMm with
    | some ratioValue, some gaugeMm, some parallelSpacingMm, some moduleLengthMm =>
      match raw.components with
      | none => none
      | some rawComponents =>
        let components := rawComponents.filterMap validateTrackComponent
        if components.length = 0 then none
        else some { id := id, name := name, scale := scale, ratioValue := ratioValue,
                    gaugeMm := gaugeMm, parallelSpacingMm := parallelSpacingMm,
                    moduleLengthMm := moduleLengthMm, components := components }
    | _, _, _, _ => none
  | _, _, _ => none

def validatePlacedItem (raw : RawPlacedItem) : Option PlacedItem :=
  match raw.id, raw.trackSystemId, raw.componentId with
  | some id, some trackSystemId, some componentId =>
    match raw.x, raw.y, raw.rotationDeg with
    | some x, some y, some rotationDeg =>
      some { id := id, trackSystemId := trackSystemId, componentId := componentId,
             x := x, y := y, rotationDeg := rotationDeg, isGrounded := raw.isGrounded }
    | _, _, _ => none
  | _, _, _ => none

def validateShape (raw : RawShape) : Option CanvasShape :=
  match raw.typeTag, raw.id with
  | some tag, some id =>
    if tag = ("rectangle") then
      match raw.x, raw.y, raw.width, raw.height, raw.rotationDeg with
      | some x, some y, some width, some height, some rotationDeg =>
        some (.rectangle id x y width height rotationDeg)
      | _, _, _, _, _ => none
    else if tag = ("circle") then
      match raw.x, raw.y, raw.width, raw.rotationDeg with
      | some x, some y, some width, some rotationDeg =>
        some (.circle id x y width rotationDeg)
      | _, _, _, _ => none
    else if tag = ("text") then
      match raw.x, raw.y, raw.fontSize, raw.width, raw.height, raw.rotationDeg, raw.content with
      | some x, some y, some fontSize, some width, some height, some rotationDeg, some content =>
        some (.text id x y content fontSize width height rotationDeg)
      | _, _, _, _, _, _, _ => none
    else if tag = ("dimension") then
      match raw.x, raw.y, raw.length, raw.rotationDeg, raw.offsetMm with
      | some x, some y, some length, some rotationDeg, some offsetMm =>
        some (.dimension id x y length rotationDeg offsetMm raw.label)
      | _, _, _, _, _ => none
    else none
  | _, _ => none

/-- Component-id lookup used by the dangling-reference check
(`trackSystemComponentMap`); a duplicated system id keeps the last entry,
as with `new Map(entries)`. -/
def systemComponentLookup (systems : List TrackSystemDefinition) (systemId : String) :
    Option TrackSystemDefinition :=
  systems.reverse.find? (fun s => s.id == systemId)

def itemIsDangling (systems : List TrackSystemDefinition) (item : PlacedItem) : Bool :=
  match systemComponentLookup systems item.trackSystemId with
  | none => true
  | some s => !(s.components.any (fun c => c.id == item.componentId))

/-- The `validateLayout` function.  Invalid track systems, components,
placed items, connections and shapes are dropped by `filter(Boolean)`;
only a missing layout, an empty validated track-system list, or a surviving
placed item with a dangling component/track-system reference rejects the
whole payload. -/
def validateLayout (candidate : Option RawLayout) : Except String LayoutState :=
  match candidate with
  | none => .error ("Layout is missing from the file.")
  | some raw =>
    let trackSystems := (raw.trackSystems.getD []).filterMap validateTrackSystem
    if trackSystems.length = 0 then .error ("No track systems found in the import.")
    else
      let placedItems := (raw.placedItems.getD []).filterMap validatePlacedItem
      if placedItems.any (itemIsDangling trackSystems) then
        .error ("Placed items reference missing track systems or components.")
      else
        let placedItemIds := placedItems.map (fun i => i.id)
        let connections := ((raw.connections.getD []).filterMap validateConnection).filter
          (fun conn => conn.fst.itemId ∈ placedItemIds ∧ conn.snd.itemId ∈ placedItemIds)
        let shapes := (raw.shapes.getD []).filterMap validateShape
        let activeTrackSystemId : Option String := match raw.activeTrackSystemId with
          | some aid =>
            if trackSystems.any (fun s => s.id == aid) then some aid
            else (trackSystems.head?).map (fun s => s.id)
          | none => (trackSystems.head?).map (fun s => s.id)
        .ok { activeTrackSystemId := activeTrackSystemId, trackSystems := trackSystems,
              placedItems := placedItems, connections := connections, shapes := shapes }

/-! ## Basic lemmas about the connector transform -/

lemma hypot_cos_sin (a : ℝ) : hypot (Real.cos a) (Real.sin a) = 1 := by
  unfold hypot
  rw [Real.cos_sq_add_sin_sq, Real.sqrt_one]

lemma normalizeVec_cos_sin (a : ℝ) :
    normalizeVec ⟨Real.cos a, Real.sin a⟩ = ⟨Real.cos a, Real.sin a⟩ := by
  unfold normalizeVec
  simp [hypot_cos_sin a]

lemma makeConnector_xMm (x y d : ℝ) : (makeConnector x y d).xMm = x := rfl

lemma makeConnector_yMm (x y d : ℝ) : (makeConnector x y d).yMm = y := rfl

lemma makeConnector_widthMm (x y d : ℝ) :
    (makeConnector x y d).widthMm = TRACK_EDGE_WIDTH_MM := rfl

lemma makeConnector_directionDeg (x y d : ℝ) :
    (makeConnector x y d).directionDeg = d := rfl

lemma makeConnector_dir (x y d : ℝ) :
    (makeConnector x y d).dir = ⟨Real.cos (toRad d), Real.sin (toRad d)⟩ := by
  unfold makeConnector
  exact normalizeVec_cos_sin _

lemma toRad_add (a b : ℝ) : toRad (a + b) = toRad a + toRad b := by
  unfold toRad; ring

lemma toDeg_shift (z : ℝ) (k : ℤ) :
    toDeg (toRad z - 2 * Real.pi * k) = z - 360 * k := by
  unfold toDeg toRad
  have hpi := Real.pi_ne_zero
  field_simp
  ring

/-- Canonical form of a transformed `makeConnector`: the position is rotated
and translated, the tangent is the unit vector of the summed angle, and
`directionDeg` is the normalized sum of the local direction and the pose
rotation. -/
lemma transformConnector_makeConnector (x y d : ℝ) (t : WorldTransform) :
    transformConnector (makeConnector x y d) t =
      { xMm := x * Real.cos (toRad t.rotationDeg) - y * Real.sin (toRad t.rotationDeg) + t.x,
        yMm := x * Real.sin (toRad t.rotationDeg) + y * Real.cos (toRad t.rotationDeg) + t.y,
        dir := ⟨Real.cos (toRad (d + t.rotationDeg)), Real.sin (toRad (d + t.rotationDeg))⟩,
        widthMm := TRACK_EDGE_WIDTH_MM,
        directionDeg := normalizeAngle (d + t.rotationDeg) } := by
  have h1 : Real.cos (toRad d) * Real.cos (toRad t.rotationDeg) -
      Real.sin (toRad d) * Real.sin (toRad t.rotationDeg) =
      Real.cos (toRad (d + t.rotationDeg)) := by
    rw [toRad_add, Real.cos_add]
  have h2 : Real.cos (toRad d) * Real.sin (toRad t.rotationDeg) +
      Real.sin (toRad d) * Real.cos (toRad t.rotationDeg) =
      Real.sin (toRad (d + t.rotationDeg)) := by
    rw [toRad_add, Real.sin_add]
    ring
  have hv : (⟨Real.cos (toRad d) * Real.cos (toRad t.rotationDeg) -
        Real.sin (toRad d) * Real.sin (toRad t.rotationDeg),
      Real.cos (toRad d) * Real.sin (toRad t.rotationDeg) +
        Real.sin (toRad d) * Real.cos (toRad t.rotationDeg)⟩ : Vec2) =
      ⟨Real.cos (toRad (d + t.rotationDeg)), Real.sin (toRad (d + t.rotationDeg))⟩ := by
    rw [h1, h2]
  obtain ⟨k, hk⟩ := atan2_cos_sin (toRad (d + t.rotationDeg))
  have hdeg : normalizeAngle (toDeg (atan2 (Real.sin (toRad (d + t.rotationDeg)))
      (Real.cos (toRad (d + t.rotationDeg))))) = normalizeAngle (d + t.rotationDeg) := by
    rw [hk, toDeg_shift]
    exact normalizeAngle_congr ⟨-k, by push_cast; ring⟩
  simp only [transformConnector, makeConnector_xMm, makeConnector_yMm,
    makeConnector_widthMm, makeConnector_dir, hv, normalizeVec_cos_sin]
  rw [hdeg]

lemma transformConnector_directionDeg_make (x y d : ℝ) (t : WorldTransform) :
    (transformConnector (makeConnector x y d) t).directionDeg =
      normalizeAngle (d + t.rotationDeg) := by
  rw [transformConnector_makeConnector]

lemma transformConnector_xMm_make (x y d : ℝ) (t : WorldTransform) :
    (transformConnector (makeConnector x y d) t).xMm =
      x * Real.cos (toRad t.rotationDeg) - y * Real.sin (toRad t.rotationDeg) + t.x := by
  rw [transformConnector_makeConnector]

lemma transformConnector_yMm_make (x y d : ℝ) (t : WorldTransform) :
    (transformConnector (makeConnector x y d) t).yMm =
      x * Real.sin (toRad t.rotationDeg) + y * Real.cos (toRad t.rotationDeg) + t.y := by
  rw [transformConnector_makeConnector]

/-- Every connector produced by the geometry provider is a `makeConnector`
application; `IsAngleConnector` abstracts that shape. -/
def IsAngleConnector (c : TrackConnector) : Prop := ∃ x y d, c = makeConnector x y d

lemma straight_entries_angle (d : TrackComponentDefinition) :
    ∀ e ∈ listConnectorEntries (getStraightGeometry d), IsAngleConnector e.2 := by
  intro e he
  simp only [getStraightGeometry, listConnectorEntries, List.mem_cons,
    List.not_mem_nil, or_false] at he
  rcases he with rfl | rfl
  · exact ⟨_, _, _, rfl⟩
  · exact ⟨_, _, _, rfl⟩

lemma curve_entries_angle (d : TrackComponentDefinition) :
    ∀ e ∈ listConnectorEntries (getCurveGeometry d), IsAngleConnector e.2 := by
  intro e he
  simp only [getCurveGeometry, listConnectorEntries, List.mem_cons,
    List.not_mem_nil, or_false] at he
  rcases he with rfl | rfl
  · exact ⟨_, _, _, rfl⟩
  · exact ⟨_, _, _, rfl⟩

lemma simpleSwitch_entries_angle (d : TrackComponentDefinition) (m : Option SwitchMetaRaw) :
    ∀ e ∈ listConnectorEntries (getSimpleSwitchGeometry d m), IsAngleConnector e.2 := by
  intro e he
  simp only [getSimpleSwitchGeometry, listConnectorEntries, List.mem_cons,
    List.not_mem_nil, or_false] at he
  rcases he with rfl | rfl | rfl | rfl <;> exact ⟨_, _, _, rfl⟩

lemma curvedSwitch_entries_angle (m : SwitchMetaRaw) :
    ∀ e ∈ listConnectorEntries (getCurvedSwitchGeometry m), IsAngleConnector e.2 := by
  intro e he
  simp only [getCurvedSwitchGeometry, listConnectorEntries, List.mem_cons,
    List.not_mem_nil, or_false] at he
  rcases he with rfl | rfl | rfl <;> exact ⟨_, _, _, rfl⟩

lemma threeWay_entries_angle (m : SwitchMetaRaw) :
    ∀ e ∈ listConnectorEntries (getThreeWaySwitchGeometry m), IsAngleConnector e.2 := by
  intro e he
  simp only [getThreeWaySwitchGeometry, listConnectorEntries, List.mem_cons,
    List.not_mem_nil, or_false] at he
  rcases he with rfl | rfl | rfl | rfl <;> exact ⟨_, _, _, rfl⟩

lemma ySwitch_entries_angle (m : SwitchMetaRaw) :
    ∀ e ∈ listConnectorEntries (getYSwitchGeometry m), IsAngleConnector e.2 := by
  intro e he
  simp only [getYSwitchGeometry, listConnectorEntries, List.mem_cons,
    List.not_mem_nil, or_false] at he
  rcases he with rfl | rfl | rfl | rfl <;> exact ⟨_, _, _, rfl⟩

lemma doubleSlip_entries_angle (m : SwitchMetaRaw) :
    ∀ e ∈ listConnectorEntries (getDoubleSlipGeometry m), IsAngleConnector e.2 := by
  intro e he
  simp only [getDoubleSlipGeometry, listConnectorEntries, List.mem_cons,
    List.not_mem_nil, or_false] at he
  rcases he with rfl | rfl | rfl | rfl <;> exact ⟨_, _, _, rfl⟩

lemma crossing_entries_angle (m : SwitchMetaRaw) :
    ∀ e ∈ listConnectorEntries (getCrossingGeometry m), IsAngleConnector e.2 := by
  intro e he
  simp only [getCrossingGeometry, listConnectorEntries, List.mem_cons,
    List.not_mem_nil, or_false] at he
  rcases he with rfl | rfl | rfl | rfl <;> exact ⟨_, _, _, rfl⟩

lemma geometry_entries_angle (d : TrackComponentDefinition) :
    ∀ e ∈ listConnectorEntries (getComponentGeometry d), IsAngleConnector e.2 := by
  intro e he
  obtain ⟨cid, clabel, ty, len, rad, ang, cw, art, meta⟩ := d
  cases ty
  · exact straight_entries_angle _ _ he
  · exact curve_entries_angle _ _ he
  · cases meta with
    | none => exact simpleSwitch_entries_angle _ _ _ he
    | some m =>
      simp only [getComponentGeometry] at he
      by_cases h1 : isSimpleSwitchMeta m
      · rw [if_pos h1] at he; exact simpleSwitch_entries_angle _ _ _ he
      · rw [if_neg h1] at he
        by_cases h2 : isCurvedSwitchMeta m
        · rw [if_pos h2] at he; exact curvedSwitch_entries_angle _ _ he
        · rw [if_neg h2] at he
          by_cases h3 : isThreeWaySwitchMeta m
          · rw [if_pos h3] at he; exact threeWay_entries_angle _ _ he
          · rw [if_neg h3] at he
            by_cases h4 : isYSwitchMeta m
            · rw [if_pos h4] at he; exact ySwitch_entries_angle _ _ he
            · rw [if_neg h4] at he
              by_cases h5 : isDoubleSlipMeta m
              · rw [if_pos h5] at he; exact doubleSlip_entries_angle _ _ he
              · rw [if_neg h5] at he; exact simpleSwitch_entries_angle _ _ _ he
  · cases meta with
    | none => exact straight_entries_angle _ _ he
    | some m =>
      simp only [getComponentGeometry] at he
      by_cases h1 : isCrossingMeta m
      · rw [if_pos h1] at he; exact crossing_entries_angle _ _ he
      · rw [if_neg h1] at he; exact straight_entries_angle _ _ he
  · exact straight_entries_angle _ _ he

/-! ## Specification of the snap search -/

/-- The acceptance window of step 3 of the snap algorithm. -/
def snapAccepted (c : SnapCandidate) : Prop :=
  candDistance c ≤ SNAP_DISTANCE_MM ∧ |candAngleDiff c| ≤ ANGLE_TOLERANCE_DEG

lemma snapStep_none (i : String) (t : WorldTransform) (c : SnapCandidate) :
    snapStep i t none c =
      if candDistance c > SNAP_DISTANCE_MM then none
      else if |candAngleDiff c| > ANGLE_TOLERANCE_DEG then none
      else some (mkSnapBest i t c) := rfl

lemma snapStep_some (i : String) (t : WorldTransform) (b : SnapBest) (c : SnapCandidate) :
    snapStep i t (some b) c =
      if candDistance c > SNAP_DISTANCE_MM then some b
      else if |candAngleDiff c| > ANGLE_TOLERANCE_DEG then some b
      else if candDistance c < b.distance then some (mkSnapBest i t c) else some b := rfl

lemma snapStep_not_accepted {c : SnapCandidate} (i : String) (t : WorldTransform)
    (acc : Option SnapBest) (h : ¬ snapAccepted c) : snapStep i t acc c = acc := by
  unfold snapAccepted at h
  push_neg at h
  by_cases h1 : candDistance c > SNAP_DISTANCE_MM
  · cases acc with
    | none => rw [snapStep_none, if_pos h1]
    | some a => rw [snapStep_some, if_pos h1]
  · have h2 : |candAngleDiff c| > ANGLE_TOLERANCE_DEG := h (not_lt.mp h1)
    cases acc with
    | none => rw [snapStep_none, if_neg h1, if_pos h2]
    | some a => rw [snapStep_some, if_neg h1, if_pos h2]

lemma foldl_snapStep_some (l : List SnapCandidate) (i : String) (t : WorldTransform)
    (b : SnapBest) : ∃ b', l.foldl (snapStep i t) (some b) = some b' := by
  induction l generalizing b with
  | nil => exact ⟨b, rfl⟩
  | cons c l ih =>
    rw [List.foldl_cons, snapStep_some]
    by_cases h1 : candDistance c > SNAP_DISTANCE_MM
    · rw [if_pos h1]; exact ih b
    · rw [if_neg h1]
      by_cases h2 : |candAngleDiff c| > ANGLE_TOLERANCE_DEG
      · rw [if_pos h2]; exact ih b
      · rw [if_neg h2]
        by_cases h3 : candDistance c < b.distance
        · rw [if_pos h3]; exact ih _
        · rw [if_neg h3]; exact ih b

lemma foldl_none_iff (l : List SnapCandidate) (i : String) (t : WorldTransform) :
    l.foldl (snapStep i t) none = none ↔ ∀ c ∈ l, ¬ snapAccepted c := by
  induction l with
  | nil => simp
  | cons c l ih =>
    rw [List.foldl_cons, snapStep_none]
    by_cases h1 : candDistance c > SNAP_DISTANCE_MM
    · rw [if_pos h1, ih]
      constructor
      · intro h c' hc'
        rcases List.mem_cons.mp hc' with rfl | hmem
        · exact fun hacc => absurd hacc.1 (not_le.mpr h1)
        · exact h c' hmem
      · intro h c' hc'
        exact h c' (List.mem_cons_of_mem _ hc')
    · rw [if_neg h1]
      by_cases h2 : |candAngleDiff c| > ANGLE_TOLERANCE_DEG
      · rw [if_pos h2, ih]
        constructor
        · intro h c' hc'
          rcases List.mem_cons.mp hc' with rfl | hmem
          · exact fun hacc => absurd hacc.2 (not_le.mpr h2)
          · exact h c' hmem
        · intro h c' hc'
          exact h c' (List.mem_cons_of_mem _ hc')
      · rw [if_neg h2]
        obtain ⟨b', hb'⟩ := foldl_snapStep_some l i t (mkSnapBest i t c)
        rw [hb']
        constructor
        · intro h
          exact absurd h (by simp)
        · intro h
          exact absurd ⟨not_lt.mp h1, not_lt.mp h2⟩ (h c (List.mem_cons_self c l))

lemma mkSnapBest_distance (i : String) (t : WorldTransform) (c : SnapCandidate) :
    (mkSnapBest i t c).distance = candDistance c := rfl

lemma foldl_some_spec (l : List SnapCandidate) (i : String) (t : WorldTransform) :
    ∀ (acc : Option SnapBest) (b : SnapBest), l.foldl (snapStep i t) acc = some b →
      (acc = some b ∨ ∃ c ∈ l, snapAccepted c ∧ b = mkSnapBest i t c) ∧
      (∀ c ∈ l, snapAccepted c → b.distance ≤ candDistance c) ∧
      (∀ a, acc = some a → b.distance ≤ a.distance) := by
  induction l with
  | nil =>
    intro acc b h
    simp only [List.foldl_nil] at h
    refine ⟨Or.inl h, by simp, ?_⟩
    intro a ha
    have hba : some b = some a := h.symm.trans ha
    injection hba with hba'
    rw [hba']
  | cons c l ih =>
    intro acc b h
    rw [List.foldl_cons] at h
    by_cases hacc : snapAccepted c
    · cases acc with
      | none =>
        have hstep : snapStep i t none c = some (mkSnapBest i t c) := by
          rw [snapStep_none, if_neg (not_lt.mpr hacc.1), if_neg (not_lt.mpr hacc.2)]
        rw [hstep] at h
        obtain ⟨horigin, hmin, hle⟩ := ih _ b h
        have hble : b.distance ≤ candDistance c := by
          have := hle (mkSnapBest i t c) rfl
          rwa [mkSnapBest_distance] at this
        refine ⟨?_, ?_, ?_⟩
        · right
          rcases horigin with heq | ⟨c', hc', hacc', rfl⟩
          · refine ⟨c, List.mem_cons_self c l, hacc, ?_⟩
            injection heq with heq'
            exact heq'.symm
          · exact ⟨c', List.mem_cons_of_mem _ hc', hacc', rfl⟩
        · intro c' hc' hacc'
          rcases List.mem_cons.mp hc' with rfl | hmem
          · exact hble
          · exact hmin c' hmem hacc'
        · intro a ha
          exact absurd ha (by simp)
      | some a =>
        have hstep : snapStep i t (some a) c =
            if candDistance c < a.distance then some (mkSnapBest i t c) else some a := by
          rw [snapStep_some, if_neg (not_lt.mpr hacc.1), if_neg (not_lt.mpr hacc.2)]
        rw [hstep] at h
        by_cases hcd : candDistance c < a.distance
        · rw [if_pos hcd] at h
          obtain ⟨horigin, hmin, hle⟩ := ih _ b h
          have hble : b.distance ≤ candDistance c := by
            have := hle (mkSnapBest i t c) rfl
            rwa [mkSnapBest_distance] at this
          refine ⟨?_, ?_, ?_⟩
          · right
            rcases horigin with heq | ⟨c', hc', hacc', rfl⟩
            · refine ⟨c, List.mem_cons_self c l, hacc, ?_⟩
              injection heq with heq'
              exact heq'.symm
            · exact ⟨c', List.mem_cons_of_mem _ hc', hacc', rfl⟩
          · intro c' hc' hacc'
            rcases List.mem_cons.mp hc' with rfl | hmem
            · exact hble
            · exact hmin c' hmem hacc'
          · intro a' ha'
            injection ha' with ha''
            rw [← ha'']
            exact le_trans hble (le_of_lt hcd)
        · rw [if_neg hcd] at h
          obtain ⟨horigin, hmin, hle⟩ := ih _ b h
          have hba : b.distance ≤ a.distance := hle a rfl
          refine ⟨?_, ?_, ?_⟩
          · rcases horigin with heq | ⟨c', hc', hacc', rfl⟩
            · exact Or.inl heq
            · exact Or.inr ⟨c', List.mem_cons_of_mem _ hc', hacc', rfl⟩
          · intro c' hc' hacc'
            rcases List.mem_cons.mp hc' with rfl | hmem
            · exact le_trans hba (not_lt.mp hcd)
            · exact hmin c' hmem hacc'
          · intro a' ha'
            injection ha' with ha''
            rw [← ha'']
            exact hba
    · rw [snapStep_not_accepted i t acc hacc] at h
      obtain ⟨horigin, hmin, hle⟩ := ih acc b h
      refine ⟨?_, ?_, hle⟩
      · rcases horigin with heq | ⟨c', hc', hacc', rfl⟩
        · exact Or.inl heq
        · exact Or.inr ⟨c', List.mem_cons_of_mem _ hc', hacc', rfl⟩
      · intro c' hc' hacc'
        rcases List.mem_cons.mp hc' with rfl | hmem
        · exact absurd hacc' hacc
        · exact hmin c' hmem hacc'

lemma computeSnappedTransform_none_iff (L : LayoutState) (ts : TrackSystemDefinition)
    (itemId : String) (tentative : WorldTransform) :
    computeSnappedTransform L ts itemId tentative = none ↔
      ∀ c ∈ snapCandidates L ts itemId tentative, ¬ snapAccepted c := by
  unfold computeSnappedTransform
  rw [← foldl_none_iff (snapCandidates L ts itemId tentative) itemId tentative]
  cases hfold : (snapCandidates L ts itemId tentative).foldl (snapStep itemId tentative) none with
  | none => simp
  | some b => simp

lemma computeSnappedTransform_some_spec (L : LayoutState) (ts : TrackSystemDefinition)
    (itemId : String) (tentative : WorldTransform) (r : SnapResult)
    (h : computeSnappedTransform L ts itemId tentative = some r) :
    ∃ c ∈ snapCandidates L ts itemId tentative, snapAccepted c ∧
      r.transform = candTransform tentative c ∧
      r.movingEp = ⟨itemId, c.movingKey⟩ ∧
      r.targetEp = ⟨c.targetItemId, c.targetKey⟩ ∧
      ∀ c' ∈ snapCandidates L ts itemId tentative, snapAccepted c' →
        candDistance c ≤ candDistance c' := by
  unfold computeSnappedTransform at h
  cases hfold : (snapCandidates L ts itemId tentative).foldl (snapStep itemId tentative) none with
  | none => rw [hfold] at h; exact absurd h (by simp)
  | some b =>
    rw [hfold] at h
    obtain ⟨horigin, hmin, _⟩ := foldl_some_spec _ itemId tentative none b hfold
    rcases horigin with heq | ⟨c, hc, hacc, rfl⟩
    · exact absurd heq (by simp)
    · injection h with h'
      refine ⟨c, hc, hacc, ?_, ?_, ?_, ?_⟩
      · rw [← h']
        rfl
      · rw [← h']
        rfl
      · rw [← h']
        rfl
      · intro c' hc' hacc'
        have := hmin c' hc' hacc'
        rwa [mkSnapBest_distance] at this

/-- Structure of the candidates: the moving side of every candidate is a
geometry connector of the dragged item transformed by the tentative pose. -/
lemma snapCandidates_moving (L : LayoutState) (ts : TrackSystemDefinition)
    (itemId : String) (tentative : WorldTransform) :
    ∀ c ∈ snapCandidates L ts itemId tentative,
      IsAngleConnector c.movingLocal ∧
      c.movingWorld = transformConnector c.movingLocal tentative ∧
      (∃ other ∈ L.placedItems, other.id = c.targetItemId ∧
        ∃ og, geometryFor ts other.componentId = some og ∧
        ∃ oe ∈ listConnectorEntries og, oe.1 = c.targetKey ∧
          c.targetWorld = transformConnector oe.2 ⟨other.x, other.y, other.rotationDeg⟩) := by
  intro c hc
  unfold snapCandidates at hc
  cases hfind : L.placedItems.find? (fun p => p.id == itemId) with
  | none => rw [hfind] at hc; simp at hc
  | some item =>
    rw [hfind] at hc
    dsimp only at hc
    cases hgeo : geometryFor ts item.componentId with
    | none => rw [hgeo] at hc; simp at hc
    | some geometry =>
      rw [hgeo] at hc
      dsimp only at hc
      obtain ⟨other, hother, hc⟩ := List.mem_flatMap.mp hc
      by_cases h1 : (other.id == itemId) = true
      · rw [if_pos h1] at hc
        simp at hc
      · rw [if_neg h1] at hc
        by_cases h2 : (other.trackSystemId != ts.id) = true
        · rw [if_pos h2] at hc
          simp at hc
        · rw [if_neg h2] at hc
          cases hog : geometryFor ts other.componentId with
          | none => rw [hog] at hc; simp at hc
          | some og =>
            rw [hog] at hc
            dsimp only at hc
            obtain ⟨mc, hmc, hc⟩ := List.mem_flatMap.mp hc
            obtain ⟨oe, hoe, rfl⟩ := List.mem_map.mp hc
            obtain ⟨e, he, rfl⟩ := List.mem_map.mp hmc
            have hcomp : componentFind ts item.componentId ≠ none := by
              intro hnone
              rw [geometryFor, hnone] at hgeo
              simp at hgeo
            rcases hcf : componentFind ts item.componentId with _ | comp
            · exact absurd hcf hcomp
            · have hgeom : geometry = getComponentGeometry comp := by
                rw [geometryFor, hcf] at hgeo
                simp at hgeo
                exact hgeo.symm
              refine ⟨?_, rfl, other, hother, rfl, og, hog, oe, hoe, rfl, rfl⟩
              rw [hgeom] at he
              exact geometry_entries_angle comp e he

/-- Exactness of the solved alignment pose: re-applying the candidate
transform to the moving local connector lands exactly on the target world
position. -/
lemma candTransform_position_exact (t : WorldTransform) (c : SnapCandidate)
    (h : IsAngleConnector c.movingLocal) :
    (transformConnector c.movingLocal (candTransform t c)).xMm = c.targetWorld.xMm ∧
    (transformConnector c.movingLocal (candTransform t c)).yMm = c.targetWorld.yMm := by
  obtain ⟨x, y, dd, hc⟩ := h
  rw [hc]
  constructor
  · rw [transformConnector_xMm_make]
    simp only [candTransform, rotatePointLocal, hc, makeConnector_xMm, makeConnector_yMm]
    ring
  · rw [transformConnector_yMm_make]
    simp only [candTransform, rotatePointLocal, hc, makeConnector_xMm, makeConnector_yMm]
    ring

/-- Exactness of the solved alignment direction: the moving connector's
world direction under the candidate transform is the target direction plus
180 degrees, modulo 360. -/
lemma candTransform_direction_exact (t : WorldTransform) (c : SnapCandidate)
    (h : IsAngleConnector c.movingLocal)
    (hw : c.movingWorld = transformConnector c.movingLocal t) :
    ∃ k : ℤ, (transformConnector c.movingLocal (candTransform t c)).directionDeg =
      c.targetWorld.directionDeg + 180 - 360 * k := by
  obtain ⟨x, y, dd, hc⟩ := h
  have hWdeg : c.movingWorld.directionDeg = normalizeAngle (dd + t.rotationDeg) := by
    rw [hw, hc, transformConnector_directionDeg_make]
  have hr : (candTransform t c).rotationDeg =
      normalizeAngle (t.rotationDeg +
        normalizeAngle (c.targetWorld.directionDeg + 180 - c.movingWorld.directionDeg)) := rfl
  rw [hc, transformConnector_directionDeg_make]
  have hcongr : normalizeAngle (dd + (candTransform t c).rotationDeg) =
      normalizeAngle (c.targetWorld.directionDeg + 180) := by
    obtain ⟨k1, hk1⟩ := normalizeAngle_sub_int (t.rotationDeg +
      normalizeAngle (c.targetWorld.directionDeg + 180 - c.movingWorld.directionDeg))
    obtain ⟨k2, hk2⟩ := normalizeAngle_sub_int
      (c.targetWorld.directionDeg + 180 - c.movingWorld.directionDeg)
    obtain ⟨k3, hk3⟩ := normalizeAngle_sub_int (dd + t.rotationDeg)
    apply normalizeAngle_congr
    refine ⟨k3 - k1 - k2, ?_⟩
    rw [hr, hWdeg] at *
    push_cast
    linarith [hk1, hk2, hk3]
  obtain ⟨k4, hk4⟩ := normalizeAngle_sub_int (c.targetWorld.directionDeg + 180)
  refine ⟨k4, ?_⟩
  rw [hcongr]
  linarith [hk4]

/-! ## Group mover lemmas -/

lemma moveGroupItem_x (pB pA : Vec2) (dr : ℝ) (item : PlacedItem) :
    (moveGroupItem pB pA dr item).x =
      pA.x + (rotatePointLocal (item.x - pB.x) (item.y - pB.y) dr).x := rfl

lemma moveGroupItem_y (pB pA : Vec2) (dr : ℝ) (item : PlacedItem) :
    (moveGroupItem pB pA dr item).y =
      pA.y + (rotatePointLocal (item.x - pB.x) (item.y - pB.y) dr).y := rfl

lemma moveGroupItem_rotation (pB pA : Vec2) (dr : ℝ) (item : PlacedItem) :
    (moveGroupItem pB pA dr item).rotationDeg =
      normalizeAngle (item.rotationDeg + dr) := rfl

/-- The separation vector of two moved items is the rotation of the previous
separation vector by the rotation delta. -/
lemma moveGroupItem_rel (pB pA : Vec2) (dr : ℝ) (a b : PlacedItem) :
    (moveGroupItem pB pA dr a).x - (moveGroupItem pB pA dr b).x =
      (rotatePointLocal (a.x - b.x) (a.y - b.y) dr).x ∧
    (moveGroupItem pB pA dr a).y - (moveGroupItem pB pA dr b).y =
      (rotatePointLocal (a.x - b.x) (a.y - b.y) dr).y := by
  unfold moveGroupItem rotatePointLocal
  constructor <;> (dsimp only; ring)

lemma moveGroupItem_dist_sq (pB pA : Vec2) (dr : ℝ) (a b : PlacedItem) :
    ((moveGroupItem pB pA dr a).x - (moveGroupItem pB pA dr b).x) ^ 2 +
      ((moveGroupItem pB pA dr a).y - (moveGroupItem pB pA dr b).y) ^ 2 =
      (a.x - b.x) ^ 2 + (a.y - b.y) ^ 2 := by
  obtain ⟨hx, hy⟩ := moveGroupItem_rel pB pA dr a b
  rw [hx, hy]
  unfold rotatePointLocal
  have hcs := Real.sin_sq_add_cos_sq (toRad dr)
  dsimp only
  linear_combination ((a.x - b.x) ^ 2 + (a.y - b.y) ^ 2) * hcs

lemma moveGroupItem_rot_diff (pB pA : Vec2) (dr : ℝ) (a b : PlacedItem) :
    ∃ k : ℤ, (moveGroupItem pB pA dr a).rotationDeg -
        (moveGroupItem pB pA dr b).rotationDeg =
      a.rotationDeg - b.rotationDeg + 360 * k := by
  obtain ⟨k1, h1⟩ := normalizeAngle_sub_int (a.rotationDeg + dr)
  obtain ⟨k2, h2⟩ := normalizeAngle_sub_int (b.rotationDeg + dr)
  refine ⟨k2 - k1, ?_⟩
  rw [moveGroupItem_rotation, moveGroupItem_rotation]
  push_cast
  linarith

lemma moveGroupItems_mem (groupIds : List String) (pB pA : Vec2) (dr : ℝ)
    (items : List PlacedItem) (item : PlacedItem) (hmem : item ∈ items)
    (hid : item.id ∈ groupIds) :
    moveGroupItem pB pA dr item ∈ moveGroupItems groupIds pB pA dr items := by
  unfold moveGroupItems
  have : (fun it : PlacedItem =>
      if it.id ∈ groupIds then moveGroupItem pB pA dr it else it) item =
      moveGroupItem pB pA dr item := by
    dsimp only
    rw [if_pos hid]
  rw [← this]
  exact List.mem_map_of_mem _ hmem

/-! ## Connected-group and grounding lemmas -/

lemma bfsGroup_nil_queue (n : String → List String) (fuel : Nat) (result : List String) :
    bfsGroup n fuel [] result = result := by
  cases fuel <;> rfl

lemma connectionNeighbors_nil_of_not_connected (cs : List EndpointConnection) (id : String)
    (h : ∀ c ∈ cs, ¬(c.fst.itemId = id ∨ c.snd.itemId = id)) :
    connectionNeighbors cs id = [] := by
  unfold connectionNeighbors
  have hgen : ∀ (l : List EndpointConnection),
      (∀ c ∈ l, ¬(c.fst.itemId = id ∨ c.snd.itemId = id)) →
      ∀ acc : List String, l.foldl (fun acc c =>
        if c.fst.itemId == c.snd.itemId then acc
        else if c.fst.itemId == id then acc ++ [c.snd.itemId]
        else if c.snd.itemId == id then acc ++ [c.fst.itemId]
        else acc) acc = acc := by
    intro l
    induction l with
    | nil => intro _ acc; rfl
    | cons c l ih =>
      intro hl acc
      have hc := hl c (List.mem_cons_self _ _)
      push_neg at hc
      simp only [List.foldl_cons]
      have hstep : (if c.fst.itemId == c.snd.itemId then acc
          else if c.fst.itemId == id then acc ++ [c.snd.itemId]
          else if c.snd.itemId == id then acc ++ [c.fst.itemId]
          else acc) = acc := by
        by_cases h0 : (c.fst.itemId == c.snd.itemId) = true
        · rw [if_pos h0]
        · rw [if_neg h0, if_neg (by simp [hc.1]), if_neg (by simp [hc.2])]
      rw [hstep]
      exact ih (fun c' hc' => hl c' (List.mem_cons_of_mem _ hc')) acc
  exact hgen cs h []

lemma getConnectedGroupIds_isolated (L : LayoutState) (itemId : String)
    (h : connectionNeighbors L.connections itemId = []) :
    getConnectedGroupIds L itemId = [itemId] := by
  have hpos : 0 < groupFuel L := Nat.mul_pos (by omega) (by omega)
  obtain ⟨m, hm⟩ := Nat.exists_eq_succ_of_ne_zero (Nat.pos_iff_ne_zero.mp hpos)
  have hbfs : bfsGroup (connectionNeighbors L.connections) (groupFuel L) [itemId] [] =
      [itemId] := by
    rw [hm, bfsGroup]
    rw [if_neg (List.not_mem_nil itemId)]
    simp only [List.nil_append, h]
    exact bfsGroup_nil_queue _ _ _
  unfold getConnectedGroupIds
  rw [hbfs]
  simp

lemma grounded_member_cases (L : LayoutState) (memberId g : String)
    (hg : g ∈ getConnectedGroupIds L memberId) (hgr : isItemGrounded L g = true) :
    isItemConnected L memberId = true ∨ isItemGrounded L memberId = true := by
  by_cases hconn : isItemConnected L memberId = true
  · exact Or.inl hconn
  · right
    have hno : ∀ c ∈ L.connections, ¬(c.fst.itemId = memberId ∨ c.snd.itemId = memberId) := by
      intro c hc hor
      apply hconn
      unfold isItemConnected
      rw [List.any_eq_true]
      refine ⟨c, hc, ?_⟩
      rcases hor with h | h <;> simp [h]
    have hnil := connectionNeighbors_nil_of_not_connected L.connections memberId hno
    rw [getConnectedGroupIds_isolated L memberId hnil] at hg
    simp at hg
    rwa [hg] at hgr

lemma rotateSelected_noop (L : LayoutState) (ts : TrackSystemDefinition)
    (selEps : List EndpointRef) (deltaDeg : ℝ) (memberId : String)
    (h : isItemConnected L memberId = true ∨ isItemGrounded L memberId = true) :
    rotateSelected L ts (some memberId) selEps deltaDeg = L := by
  unfold rotateSelected
  have hcond : (isItemConnected L memberId || isItemGrounded L memberId) = true := by
    rcases h with h | h <;> simp [h]
  dsimp only
  rw [if_pos hcond]

lemma dragOperation_noop (L : LayoutState) (ts : TrackSystemDefinition)
    (memberId : String) (delta : Vec2)
    (h : ∃ g ∈ getConnectedGroupIds L memberId, isItemGrounded L g = true) :
    dragOperation L ts memberId delta = L := by
  unfold dragOperation
  cases hfind : L.placedItems.find? (fun i => i.id == memberId) with
  | none => rfl
  | some item =>
    dsimp only
    have hcond : (getConnectedGroupIds L memberId).any
        (fun gid => isItemGrounded L gid) = true := by
      rw [List.any_eq_true]
      obtain ⟨g, hg, hgr⟩ := h
      exact ⟨g, hg, hgr⟩
    rw [if_pos hcond]

/-! ## Concrete evaluation helpers -/

lemma toRad_zero : toRad 0 = 0 := by unfold toRad; ring

lemma toRad_180 : toRad 180 = Real.pi := by unfold toRad; ring

lemma toDeg_zero : toDeg 0 = 0 := by unfold toDeg; ring

lemma normalizeAngle_zero : normalizeAngle 0 = 0 :=
  normalizeAngle_eq_of (by norm_num) (by norm_num) ⟨0, by norm_num⟩

lemma normalizeAngle_180 : normalizeAngle 180 = 180 :=
  normalizeAngle_eq_of (by norm_num) (by norm_num) ⟨0, by norm_num⟩

lemma angleOf_one_zero : angleOf ⟨1, 0⟩ = 0 := by
  unfold angleOf; exact atan2_zero_one

lemma angleOf_neg_one_zero : angleOf ⟨-1, 0⟩ = Real.pi := by
  unfold angleOf; exact atan2_zero_neg_one

lemma normalizeVec_one_zero : normalizeVec ⟨1, 0⟩ = ⟨1, 0⟩ := by
  have h := normalizeVec_cos_sin 0
  rwa [Real.cos_zero, Real.sin_zero] at h

lemma normalizeVec_neg_one_zero : normalizeVec ⟨-1, 0⟩ = ⟨-1, 0⟩ := by
  have h := normalizeVec_cos_sin Real.pi
  rwa [Real.cos_pi, Real.sin_pi] at h

lemma roundValue_zero : roundValue 0 = 0 := by
  have h := @roundValue_eq 0 0 (by norm_num) (by norm_num)
  rw [h]
  norm_num

lemma roundValue_200 : roundValue 200 = 200 := by
  have h := @roundValue_eq 200 200000000 (by push_cast; norm_num) (by push_cast; norm_num)
  rw [h]
  push_cast
  norm_num

lemma hypot_gt_8 {a b : ℝ} (h : 64 < a ^ 2 + b ^ 2) : hypot a b > 8 := by
  unfold hypot
  exact Real.lt_sqrt_of_sq_lt (by nlinarith)

lemma hypot_zero_zero : hypot 0 0 = 0 := by
  unfold hypot
  rw [show (0 : ℝ) ^ 2 + 0 ^ 2 = 0 by norm_num, Real.sqrt_zero]

lemma transform_rot0_xMm (x y d tx ty : ℝ) :
    (transformConnector (makeConnector x y d) ⟨tx, ty, 0⟩).xMm = x + tx := by
  rw [transformConnector_xMm_make]
  dsimp only
  rw [toRad_zero, Real.cos_zero, Real.sin_zero]
  ring

lemma transform_rot0_yMm (x y d tx ty : ℝ) :
    (transformConnector (makeConnector x y d) ⟨tx, ty, 0⟩).yMm = y + ty := by
  rw [transformConnector_yMm_make]
  dsimp only
  rw [toRad_zero, Real.cos_zero, Real.sin_zero]
  ring

lemma transform_rot0_dirDeg (x y d tx ty : ℝ) :
    (transformConnector (makeConnector x y d) ⟨tx, ty, 0⟩).directionDeg = normalizeAngle d := by
  rw [transformConnector_directionDeg_make]
  dsimp only
  rw [add_zero]

/-! ## Concrete catalog and layouts used as witnesses -/

def straight100 : TrackComponentDefinition :=
  { id := "S100", label := "S100", type := .straight, lengthMm := some 100 }

def straight150 : TrackComponentDefinition :=
  { id := "S150", label := "S150", type := .straight, lengthMm := some 150 }

def straight200 : TrackComponentDefinition :=
  { id := "S200", label := "S200", type := .straight, lengthMm := some 200 }

def curve500 : TrackComponentDefinition :=
  { id := "R500", label := "R500", type := .curve, radiusMm := some 500,
    angleDeg := some 30, clockwise := some false }

def switchWL : TrackComponentDefinition :=
  { id := "WL", label := "WL", type := .switch }

def demoTS : TrackSystemDefinition :=
  { id := "piko", name := "PIKO A", scale := "H0", ratioValue := 87, gaugeMm := 16.5,
    parallelSpacingMm := 61.88, moduleLengthMm := 239,
    components := [straight100, straight150, straight200, curve500, switchWL] }

def itemA : PlacedItem :=
  { id := "A", trackSystemId := "piko", componentId := "S100",
    x := 0, y := 0, rotationDeg := 0 }

def itemB : PlacedItem :=
  { id := "B", trackSystemId := "piko", componentId := "S100",
    x := 100, y := 0, rotationDeg := 0 }

def connAB : EndpointConnection := ⟨⟨"A", "end"⟩, ⟨"B", "start"⟩⟩

/-- Two connected straights; dragging `A` with an unchanged pose puts its
`end` connector exactly on `B`'s `start` connector. -/
def demoLayout : LayoutState :=
  { activeTrackSystemId := some "piko", trackSystems := [demoTS],
    placedItems := [itemA, itemB], connections := [connAB], shapes := [] }

def demoC1 : SnapCandidate :=
  ⟨"start", makeConnector 0 0 180, transformConnector (makeConnector 0 0 180) ⟨0, 0, 0⟩,
   "B", "start", transformConnector (makeConnector 0 0 180) ⟨100, 0, 0⟩⟩

def demoC2 : SnapCandidate :=
  ⟨"start", makeConnector 0 0 180, transformConnector (makeConnector 0 0 180) ⟨0, 0, 0⟩,
   "B", "end", transformConnector (makeConnector 100 0 0) ⟨100, 0, 0⟩⟩

def demoC3 : SnapCandidate :=
  ⟨"end", makeConnector 100 0 0, transformConnector (makeConnector 100 0 0) ⟨0, 0, 0⟩,
   "B", "start", transformConnector (makeConnector 0 0 180) ⟨100, 0, 0⟩⟩

def demoC4 : SnapCandidate :=
  ⟨"end", makeConnector 100 0 0, transformConnector (makeConnector 100 0 0) ⟨0, 0, 0⟩,
   "B", "end", transformConnector (makeConnector 100 0 0) ⟨100, 0, 0⟩⟩

lemma demo_candidates_eq :
    snapCandidates demoLayout demoTS ("A") ⟨0, 0, 0⟩ = [demoC1, demoC2, demoC3, demoC4] := by
  rfl

lemma demoC1_dist : candDistance demoC1 > SNAP_DISTANCE_MM := by
  unfold candDistance demoC1 SNAP_DISTANCE_MM
  rw [transform_rot0_xMm, transform_rot0_xMm, transform_rot0_yMm, transform_rot0_yMm]
  apply hypot_gt_8
  norm_num

lemma demoC2_dist : candDistance demoC2 > SNAP_DISTANCE_MM := by
  unfold candDistance demoC2 SNAP_DISTANCE_MM
  rw [transform_rot0_xMm, transform_rot0_xMm, transform_rot0_yMm, transform_rot0_yMm]
  apply hypot_gt_8
  norm_num

lemma demoC4_dist : candDistance demoC4 > SNAP_DISTANCE_MM := by
  unfold candDistance demoC4 SNAP_DISTANCE_MM
  rw [transform_rot0_xMm, transform_rot0_xMm, transform_rot0_yMm, transform_rot0_yMm]
  apply hypot_gt_8
  norm_num

lemma demoC3_dist : candDistance demoC3 = 0 := by
  unfold candDistance demoC3
  rw [transform_rot0_xMm, transform_rot0_xMm, transform_rot0_yMm, transform_rot0_yMm]
  rw [show (100 + 0 - (0 + 100) : ℝ) = 0 by norm_num,
    show (0 + 0 - (0 + 0) : ℝ) = 0 by norm_num]
  exact hypot_zero_zero

lemma demoC3_angle : candAngleDiff demoC3 = 0 := by
  unfold candAngleDiff demoC3
  rw [transform_rot0_dirDeg, transform_rot0_dirDeg, normalizeAngle_zero, normalizeAngle_180]
  exact normalizeAngle_eq_of (by norm_num) (by norm_num) ⟨-1, by push_cast; norm_num⟩

lemma demoC3_transform : candTransform ⟨0, 0, 0⟩ demoC3 = ⟨0, 0, 0⟩ := by
  have htd : (transformConnector (makeConnector 0 0 180)
      (⟨100, 0, 0⟩ : WorldTransform)).directionDeg = 180 := by
    rw [transform_rot0_dirDeg, normalizeAngle_180]
  have hmd : (transformConnector (makeConnector 100 0 0)
      (⟨0, 0, 0⟩ : WorldTransform)).directionDeg = 0 := by
    rw [transform_rot0_dirDeg, normalizeAngle_zero]
  unfold candTransform demoC3
  dsimp only
  rw [htd, hmd]
  have hdelta : normalizeAngle (180 + 180 - 0 : ℝ) = 0 :=
    normalizeAngle_eq_of (by norm_num) (by norm_num) ⟨1, by push_cast; norm_num⟩
  rw [hdelta]
  rw [show (0 + 0 : ℝ) = 0 by norm_num, normalizeAngle_zero]
  unfold rotatePointLocal
  rw [toRad_zero, Real.cos_zero, Real.sin_zero]
  rw [transform_rot0_xMm, transform_rot0_yMm]
  dsimp only
  norm_num
  rw [makeConnector_xMm, makeConnector_yMm]
  norm_num

lemma demo_fold_eval :
    [demoC1, demoC2, demoC3, demoC4].foldl (snapStep ("A") ⟨0, 0, 0⟩) none =
      some (mkSnapBest ("A") ⟨0, 0, 0⟩ demoC3) := by
  have h3d : ¬(candDistance demoC3 > SNAP_DISTANCE_MM) := by
    rw [demoC3_dist]
    unfold SNAP_DISTANCE_MM
    norm_num
  have h3a : ¬(|candAngleDiff demoC3| > ANGLE_TOLERANCE_DEG) := by
    rw [demoC3_angle]
    unfold ANGLE_TOLERANCE_DEG
    norm_num
  simp only [List.foldl_cons, List.foldl_nil]
  rw [snapStep_none, if_pos demoC1_dist]
  rw [snapStep_none, if_pos demoC2_dist]
  rw [snapStep_none, if_neg h3d, if_neg h3a]
  rw [snapStep_some, if_pos demoC4_dist]

def demoSnapResult : SnapResult := ⟨⟨0, 0, 0⟩, ⟨"A", "end"⟩, ⟨"B", "start"⟩⟩

lemma demo_snap_eval :
    computeSnappedTransform demoLayout demoTS ("A") ⟨0, 0, 0⟩ = some demoSnapResult := by
  unfold computeSnappedTransform
  rw [demo_candidates_eq, demo_fold_eval]
  dsimp only [mkSnapBest]
  rw [demoC3_transform]
  rfl

lemma demo_group_eval : getConnectedGroupIds demoLayout ("A") = [("A"), ("B")] := by rfl

def itemS200 : PlacedItem :=
  { id := "P200", trackSystemId := "piko", componentId := "S200",
    x := 0, y := 0, rotationDeg := 0 }

/-- Anchor item whose pose is half a rounding unit off the 1e-6 grid. -/
def itemOffGrid : PlacedItem :=
  { id := "Q200", trackSystemId := "piko", componentId := "S200",
    x := 1 / 2000000, y := 0, rotationDeg := 0 }

lemma pose_S200_end :
    getEndpointPose itemS200 (makeConnector 200 0 0) = ⟨⟨200, 0⟩, ⟨1, 0⟩, 0⟩ := by
  unfold getEndpointPose transformPoint transformDir rotateVec itemS200
  dsimp only
  rw [makeConnector_dir, makeConnector_xMm, makeConnector_yMm, toRad_zero,
    Real.cos_zero, Real.sin_zero]
  dsimp only
  rw [show (⟨(1 : ℝ) * 1 - 0 * 0, (1 : ℝ) * 0 + 0 * 1⟩ : Vec2) = ⟨1, 0⟩ by norm_num]
  rw [normalizeVec_one_zero, angleOf_one_zero, toDeg_zero, normalizeAngle_zero]
  norm_num

lemma pose_offGrid_end :
    getEndpointPose itemOffGrid (makeConnector 200 0 0) =
      ⟨⟨200 + 1 / 2000000, 0⟩, ⟨1, 0⟩, 0⟩ := by
  unfold getEndpointPose transformPoint transformDir rotateVec itemOffGrid
  dsimp only
  rw [makeConnector_dir, makeConnector_xMm, makeConnector_yMm, toRad_zero,
    Real.cos_zero, Real.sin_zero]
  dsimp only
  rw [show (⟨(1 : ℝ) * 1 - 0 * 0, (1 : ℝ) * 0 + 0 * 1⟩ : Vec2) = ⟨1, 0⟩ by norm_num]
  rw [normalizeVec_one_zero, angleOf_one_zero, toDeg_zero, normalizeAngle_zero]
  norm_num

lemma scenario_connect_eval :
    computeConnectionTransform itemS200 (makeConnector 200 0 0) (makeConnector 0 0 180) =
      ⟨⟨200, 0⟩, 0⟩ := by
  unfold computeConnectionTransform
  rw [pose_S200_end]
  dsimp only
  rw [show (⟨-(1 : ℝ), -(0 : ℝ)⟩ : Vec2) = ⟨-1, 0⟩ by norm_num]
  rw [angleOf_neg_one_zero]
  rw [makeConnector_dir, toRad_180, Real.cos_pi, Real.sin_pi]
  rw [normalizeVec_neg_one_zero, angleOf_neg_one_zero]
  rw [show Real.pi - Real.pi = 0 by ring]
  rw [makeConnector_xMm, makeConnector_yMm]
  unfold transformPoint rotateVec
  rw [Real.cos_zero, Real.sin_zero]
  dsimp only
  rw [toDeg_zero, normalizeAngle_zero, roundValue_zero]
  rw [show (200 - ((0 : ℝ) * 1 - 0 * 0 + 0) : ℝ) = 200 by norm_num,
    show (0 - ((0 : ℝ) * 0 + 0 * 1 + 0) : ℝ) = 0 by norm_num]
  rw [roundValue_200, roundValue_zero]

lemma offGrid_connect_eval :
    computeConnectionTransform itemOffGrid (makeConnector 200 0 0) (makeConnector 0 0 180) =
      ⟨⟨200000001 / 1000000, 0⟩, 0⟩ := by
  unfold computeConnectionTransform
  rw [pose_offGrid_end]
  dsimp only
  rw [show (⟨-(1 : ℝ), -(0 : ℝ)⟩ : Vec2) = ⟨-1, 0⟩ by norm_num]
  rw [angleOf_neg_one_zero]
  rw [makeConnector_dir, toRad_180, Real.cos_pi, Real.sin_pi]
  rw [normalizeVec_neg_one_zero, angleOf_neg_one_zero]
  rw [show Real.pi - Real.pi = 0 by ring]
  rw [makeConnector_xMm, makeConnector_yMm]
  unfold transformPoint rotateVec
  rw [Real.cos_zero, Real.sin_zero]
  dsimp only
  rw [toDeg_zero, normalizeAngle_zero, roundValue_zero]
  rw [show (200 + 1 / 2000000 - ((0 : ℝ) * 1 - 0 * 0 + 0) : ℝ) = 200 + 1 / 2000000 by norm_num,
    show (0 - ((0 : ℝ) * 0 + 0 * 1 + 0) : ℝ) = 0 by norm_num]
  rw [roundValue_zero]
  have h := @roundValue_eq (200 + 1 / 2000000) 200000001 (by push_cast; norm_num)
    (by push_cast; norm_num)
  rw [h]
  push_cast
  norm_num

/-! ## Claim theorems -/

/-- C3: for every definition of type curve with radius `r`, angle `a`
degrees (converted to radians) and the clockwise flag, `getComponentGeometry`
places the start connector at the local origin and the end connector at
`(r * sin θ, sign * r * (1 - cos θ))` with `sign = -1` when clockwise and
`+1` otherwise. -/
theorem c3_curve_connector_positions (d : TrackComponentDefinition) (r a : ℝ)
    (htype : d.type = .curve) (hr : d.radiusMm = some r) (ha : d.angleDeg = some a) :
    (getComponentGeometry d).start.xMm = 0 ∧
    (getComponentGeometry d).start.yMm = 0 ∧
    (getComponentGeometry d).«end».xMm = r * Real.sin (toRad a) ∧
    (getComponentGeometry d).«end».yMm =
      (if d.clockwise.getD false then (-1 : ℝ) else 1) * (r * (1 - Real.cos (toRad a))) := by
  have hg : getComponentGeometry d = getCurveGeometry d := by
    unfold getComponentGeometry
    rw [htype]
  rw [hg]
  unfold getCurveGeometry
  dsimp only
  rw [hr, ha]
  simp only [Option.getD_some]
  refine ⟨rfl, rfl, rfl, ?_⟩
  rw [makeConnector_yMm]
  ring

/-- Witness for C3 at the concrete curve definition `curve500`. -/
theorem c3_witness :
    (getComponentGeometry curve500).start.xMm = 0 ∧
    (getComponentGeometry curve500).start.yMm = 0 ∧
    (getComponentGeometry curve500).«end».xMm = 500 * Real.sin (toRad 30) ∧
    (getComponentGeometry curve500).«end».yMm =
      (if curve500.clockwise.getD false then (-1 : ℝ) else 1) *
        (500 * (1 - Real.cos (toRad 30))) :=
  c3_curve_connector_positions curve500 500 30 rfl rfl rfl

lemma toRad_30 : toRad 30 = Real.pi / 6 := by unfold toRad; ring

lemma curve500_end_eq : (getComponentGeometry curve500).«end» =
    makeConnector (500 * Real.sin (toRad 30)) (1 * (500 - 500 * Real.cos (toRad 30))) 0 := rfl

lemma curve500_world_end :
    (transformConnector (getComponentGeometry curve500).«end» ⟨0, 0, 0⟩).xMm = 250 ∧
    66.9 < (transformConnector (getComponentGeometry curve500).«end» ⟨0, 0, 0⟩).yMm ∧
    (transformConnector (getComponentGeometry curve500).«end» ⟨0, 0, 0⟩).yMm < 67.1 := by
  rw [curve500_end_eq]
  rw [transform_rot0_xMm, transform_rot0_yMm]
  rw [toRad_30, Real.sin_pi_div_six, Real.cos_pi_div_six]
  have h3 : Real.sqrt 3 ^ 2 = 3 := Real.sq_sqrt (by norm_num)
  have h3nn : 0 ≤ Real.sqrt 3 := Real.sqrt_nonneg 3
  refine ⟨by norm_num, ?_, ?_⟩ <;> nlinarith

/-- C9 counterexample: the claimed end world position `(250.0, 33.5)` for
curve(radius 500, angle 30°, counter-clockwise) at the origin is wrong: the
actual y coordinate `500 * (1 - cos 30°) ≈ 66.99` is more than 30 mm away
from the claimed 33.5. -/
theorem c9_counterexample :
    ¬(|(transformConnector (getComponentGeometry curve500).«end» ⟨0, 0, 0⟩).yMm - 33.5| ≤ 30) := by
  intro habs
  obtain ⟨hx, hy1, hy2⟩ := curve500_world_end
  have h2 := (abs_le.mp habs).2
  linarith

/-- C9 (amended): for curve(radius 500, angle 30°, clockwise false) placed at
the origin with rotation 0, the end connector's world position is
approximately `(250.0, 67.0)`: exactly 250 in x, and within `(66.9, 67.1)`
in y (the exact value is `500 * (1 - cos 30°) = 500 - 250 * sqrt 3`). -/
theorem c9_amended :
    (transformConnector (getComponentGeometry curve500).«end» ⟨0, 0, 0⟩).xMm = 250 ∧
    66.9 < (transformConnector (getComponentGeometry curve500).«end» ⟨0, 0, 0⟩).yMm ∧
    (transformConnector (getComponentGeometry curve500).«end» ⟨0, 0, 0⟩).yMm < 67.1 :=
  curve500_world_end

/-- C10: a switch definition whose meta record is absent or matches none of
the five variant validators falls back to the simple-switch geometry, whose
diverging branch goes left (positive y sign) exactly when the uppercased id
contains the letter L, and whose missing numeric fields take the defaults
239.07 mm (straight leg), 907.97 mm (branch radius) and 15 degrees (branch
angle). -/
theorem c10_switch_fallback (d : TrackComponentDefinition)
    (htype : d.type = .switch)
    (hfb : d.meta = none ∨ ∃ m, d.meta = some m ∧
      isSimpleSwitchMeta m = false ∧ isCurvedSwitchMeta m = false ∧
      isThreeWaySwitchMeta m = false ∧ isYSwitchMeta m = false ∧
      isDoubleSlipMeta m = false) :
    getComponentGeometry d = getSimpleSwitchGeometry d none ∧
    (getSimpleSwitchGeometry d none).«end».xMm = d.lengthMm.getD 239.07 ∧
    (getSimpleSwitchGeometry d none).extraConnectors.map Prod.fst =
      [("branch"), ("diverging")] ∧
    ∀ p ∈ (getSimpleSwitchGeometry d none).extraConnectors,
      p.2.xMm = (d.radiusMm.getD 907.97) * Real.sin (toRad (d.angleDeg.getD 15)) ∧
      p.2.yMm = (if (d.id.map Char.toUpper).contains ('L') then (1 : ℝ) else -1) *
        ((d.radiusMm.getD 907.97) - (d.radiusMm.getD 907.97) * Real.cos (toRad (d.angleDeg.getD 15))) := by
  refine ⟨?_, rfl, rfl, ?_⟩
  · rcases hfb with hm | ⟨m, hm, h1, h2, h3, h4, h5⟩
    · unfold getComponentGeometry
      rw [htype, hm]
    · unfold getComponentGeometry
      rw [htype, hm]
      dsimp only
      rw [if_neg (by simp [h1]), if_neg (by simp [h2]), if_neg (by simp [h3]),
        if_neg (by simp [h4]), if_neg (by simp [h5])]
  · intro p hp
    simp only [getSimpleSwitchGeometry, Option.none_bind, Option.none_orElse,
      Option.getD_none, List.mem_cons, List.not_mem_nil, or_false] at hp
    rcases hp with rfl | rfl <;>
    · constructor
      · rw [makeConnector_xMm]
      · rw [makeConnector_yMm]
        by_cases hL : (d.id.map Char.toUpper).contains ('L') = true
        · rw [if_pos hL, if_pos hL, if_pos (by rfl)]
        · rw [if_neg hL, if_neg hL, if_neg (by decide)]

/-- Witness for C10 at the metaless switch definition `switchWL`, whose id
contains the letter L. -/
theorem c10_witness :
    getComponentGeometry switchWL = getSimpleSwitchGeometry switchWL none ∧
    (getSimpleSwitchGeometry switchWL none).«end».xMm = switchWL.lengthMm.getD 239.07 ∧
    (getSimpleSwitchGeometry switchWL none).extraConnectors.map Prod.fst =
      [("branch"), ("diverging")] ∧
    ∀ p ∈ (getSimpleSwitchGeometry switchWL none).extraConnectors,
      p.2.xMm = (switchWL.radiusMm.getD 907.97) * Real.sin (toRad (switchWL.angleDeg.getD 15)) ∧
      p.2.yMm = (if (switchWL.id.map Char.toUpper).contains ('L') then (1 : ℝ) else -1) *
        ((switchWL.radiusMm.getD 907.97) -
          (switchWL.radiusMm.getD 907.97) * Real.cos (toRad (switchWL.angleDeg.getD 15))) :=
  c10_switch_fallback switchWL rfl (Or.inl rfl)

/-- C2: a candidate pair is accepted exactly when its distance is at most
8 mm and its anti-parallel angular deviation is at most 15 degrees; a `none`
result means no candidate is accepted and the tentative pose is used
verbatim, and a `some` result is an accepted candidate of minimum distance
whose solved pose replaces the tentative one. -/
theorem c2_snap_acceptance (L : LayoutState) (ts : TrackSystemDefinition)
    (itemId : String) (tentative : WorldTransform) :
    (∀ c ∈ snapCandidates L ts itemId tentative,
      snapAccepted c ↔ candDistance c ≤ 8 ∧ |candAngleDiff c| ≤ 15) ∧
    (computeSnappedTransform L ts itemId tentative = none ↔
      ∀ c ∈ snapCandidates L ts itemId tentative,
        ¬(candDistance c ≤ 8 ∧ |candAngleDiff c| ≤ 15)) ∧
    (computeSnappedTransform L ts itemId tentative = none →
      nextDragTransform L ts itemId tentative = tentative) ∧
    ∀ r : SnapResult, computeSnappedTransform L ts itemId tentative = some r →
      nextDragTransform L ts itemId tentative = r.transform ∧
      ∃ c ∈ snapCandidates L ts itemId tentative,
        (candDistance c ≤ 8 ∧ |candAngleDiff c| ≤ 15) ∧
        r.transform = candTransform tentative c ∧
        r.movingEp = ⟨itemId, c.movingKey⟩ ∧
        r.targetEp = ⟨c.targetItemId, c.targetKey⟩ ∧
        ∀ c' ∈ snapCandidates L ts itemId tentative,
          candDistance c' ≤ 8 ∧ |candAngleDiff c'| ≤ 15 →
          candDistance c ≤ candDistance c' := by
  have hacc : ∀ c : SnapCandidate,
      snapAccepted c ↔ candDistance c ≤ 8 ∧ |candAngleDiff c| ≤ 15 := fun c => Iff.rfl
  refine ⟨fun c _ => hacc c, ?_, ?_, ?_⟩
  · rw [computeSnappedTransform_none_iff]
    exact ⟨fun h c hc hx => h c hc ((hacc c).mpr hx),
      fun h c hc hx => h c hc ((hacc c).mp hx)⟩
  · intro h
    unfold nextDragTransform
    rw [h]
  · intro r h
    refine ⟨by unfold nextDragTransform; rw [h], ?_⟩
    obtain ⟨c, hc, hca, h1, h2, h3, hmin⟩ :=
      computeSnappedTransform_some_spec L ts itemId tentative r h
    exact ⟨c, hc, (hacc c).mp hca, h1, h2, h3,
      fun c' hc' hx => hmin c' hc' ((hacc c').mpr hx)⟩

/-- Witness for C2 on the two-straight demo layout: the snap result is the
accepted minimum-distance candidate. -/
theorem c2_witness :
    nextDragTransform demoLayout demoTS ("A") ⟨0, 0, 0⟩ = demoSnapResult.transform ∧
    ∃ c ∈ snapCandidates demoLayout demoTS ("A") ⟨0, 0, 0⟩,
      (candDistance c ≤ 8 ∧ |candAngleDiff c| ≤ 15) ∧
      demoSnapResult.transform = candTransform ⟨0, 0, 0⟩ c ∧
      demoSnapResult.movingEp = ⟨("A"), c.movingKey⟩ ∧
      demoSnapResult.targetEp = ⟨c.targetItemId, c.targetKey⟩ ∧
      ∀ c' ∈ snapCandidates demoLayout demoTS ("A") ⟨0, 0, 0⟩,
        candDistance c' ≤ 8 ∧ |candAngleDiff c'| ≤ 15 →
        candDistance c ≤ candDistance c' :=
  (c2_snap_acceptance demoLayout demoTS ("A") ⟨0, 0, 0⟩).2.2.2 demoSnapResult demo_snap_eval

/-- C1 (amended): every snap-detector result is exact — the moving connector
under the resolved pose lands exactly on the target's world position and its
direction equals the target's direction plus 180 degrees modulo 360; and the
explicit-connect scenario straight(200 mm) at the origin connected end to a
straight(150 mm) start resolves the pose exactly (200, 0, 0°).
`computeConnectionTransform` rounds the solved position and rotation to the
1e-6 grid, so its alignment is exact only up to that rounding (see the
counterexample); the snap path applies no rounding. -/
theorem c1_amended (L : LayoutState) (ts : TrackSystemDefinition)
    (itemId : String) (tentative : WorldTransform) (r : SnapResult)
    (h : computeSnappedTransform L ts itemId tentative = some r) :
    (∃ c ∈ snapCandidates L ts itemId tentative,
      r.movingEp = ⟨itemId, c.movingKey⟩ ∧
      r.targetEp = ⟨c.targetItemId, c.targetKey⟩ ∧
      (transformConnector c.movingLocal r.transform).xMm = c.targetWorld.xMm ∧
      (transformConnector c.movingLocal r.transform).yMm = c.targetWorld.yMm ∧
      ∃ k : ℤ, (transformConnector c.movingLocal r.transform).directionDeg =
        c.targetWorld.directionDeg + 180 - 360 * k) ∧
    computeConnectionTransform itemS200 (getComponentGeometry straight200).«end»
      (getComponentGeometry straight150).start = ⟨⟨200, 0⟩, 0⟩ := by
  constructor
  · obtain ⟨c, hc, hca, htr, hm, ht, hmin⟩ :=
      computeSnappedTransform_some_spec L ts itemId tentative r h
    obtain ⟨hang, hworld, _⟩ := snapCandidates_moving L ts itemId tentative c hc
    obtain ⟨hx, hy⟩ := candTransform_position_exact tentative c hang
    obtain ⟨k, hk⟩ := candTransform_direction_exact tentative c hang hworld
    rw [← htr] at hx hy hk
    exact ⟨c, hc, hm, ht, hx, hy, k, hk⟩
  · have h200 : (getComponentGeometry straight200).«end» = makeConnector 200 0 0 := rfl
    have h150 : (getComponentGeometry straight150).start = makeConnector 0 0 180 := rfl
    rw [h200, h150]
    exact scenario_connect_eval

/-- Witness for C1 on the two-straight demo layout. -/
theorem c1_witness :
    (∃ c ∈ snapCandidates demoLayout demoTS ("A") ⟨0, 0, 0⟩,
      demoSnapResult.movingEp = ⟨("A"), c.movingKey⟩ ∧
      demoSnapResult.targetEp = ⟨c.targetItemId, c.targetKey⟩ ∧
      (transformConnector c.movingLocal demoSnapResult.transform).xMm = c.targetWorld.xMm ∧
      (transformConnector c.movingLocal demoSnapResult.transform).yMm = c.targetWorld.yMm ∧
      ∃ k : ℤ, (transformConnector c.movingLocal demoSnapResult.transform).directionDeg =
        c.targetWorld.directionDeg + 180 - 360 * k) ∧
    computeConnectionTransform itemS200 (getComponentGeometry straight200).«end»
      (getComponentGeometry straight150).start = ⟨⟨200, 0⟩, 0⟩ :=
  c1_amended demoLayout demoTS ("A") ⟨0, 0, 0⟩ demoSnapResult demo_snap_eval

/-- C1 counterexample: `computeConnectionTransform` rounds the solved pose
to the 1e-6 grid, so when the anchor item sits half a rounding unit off the
grid the applied pose no longer places the moving connector exactly on the
anchor connector: the x coordinates differ. -/
theorem c1_counterexample :
    (transformConnector (getComponentGeometry straight150).start
        ⟨(computeConnectionTransform itemOffGrid (getComponentGeometry straight200).«end»
            (getComponentGeometry straight150).start).position.x,
          (computeConnectionTransform itemOffGrid (getComponentGeometry straight200).«end»
            (getComponentGeometry straight150).start).position.y,
          (computeConnectionTransform itemOffGrid (getComponentGeometry straight200).«end»
            (getComponentGeometry straight150).start).rotationDeg⟩).xMm ≠
      (getEndpointPose itemOffGrid (getComponentGeometry straight200).«end»).position.x := by
  have h200 : (getComponentGeometry straight200).«end» = makeConnector 200 0 0 := rfl
  have h150 : (getComponentGeometry straight150).start = makeConnector 0 0 180 := rfl
  rw [h200, h150, offGrid_connect_eval, pose_offGrid_end]
  dsimp only
  rw [transform_rot0_xMm]
  norm_num

/-- C8 counterexample: on the demo layout the snap detector returns a
winning pair whose target endpoint belongs to item B, which is in the
dragged item A's connected group — the search does not exclude group
members. -/
theorem c8_counterexample :
    computeSnappedTransform demoLayout demoTS ("A") ⟨0, 0, 0⟩ = some demoSnapResult ∧
    demoSnapResult.targetEp.itemId ∈ getConnectedGroupIds demoLayout ("A") := by
  refine ⟨demo_snap_eval, ?_⟩
  rw [demo_group_eval]
  decide

/-- C8 (amended): the group exclusion lives one stage later —
`autoConnectSnappedEndpoints` refuses (returns `false` with the layout
unchanged) whenever the target endpoint's item already belongs to the moving
item's connected group. -/
theorem c8_amended (L : LayoutState) (ts : TrackSystemDefinition)
    (movingRef targetRef : EndpointRef)
    (h : targetRef.itemId ∈ getConnectedGroupIds L movingRef.itemId) :
    autoConnectSnappedEndpoints L ts movingRef targetRef = (false, L) := by
  unfold autoConnectSnappedEndpoints
  by_cases heq : movingRef.itemId = targetRef.itemId
  · rw [if_pos heq]
  · rw [if_neg heq, if_pos h]

/-- Witness for C8 on the demo layout. -/
theorem c8_witness :
    autoConnectSnappedEndpoints demoLayout demoTS ⟨("A"), ("end")⟩ ⟨("B"), ("start")⟩ =
      (false, demoLayout) :=
  c8_amended demoLayout demoTS ⟨("A"), ("end")⟩ ⟨("B"), ("start")⟩ (by decide)

/-- C5: a group move sends every member to
`pivotAfter + rotate(memberPos - pivotBefore, deltaRotation)` with rotation
`member.rotationDeg + deltaRotation` normalized, so any two members keep
their relative distance exactly and their relative rotation up to a
multiple of 360 degrees. -/
theorem c5_group_move_preserves (groupIds : List String) (pivotBefore pivotAfter : Vec2)
    (deltaRotation : ℝ) (items : List PlacedItem) (a b : PlacedItem)
    (ha : a ∈ items) (hb : b ∈ items) (hga : a.id ∈ groupIds) (hgb : b.id ∈ groupIds) :
    moveGroupItem pivotBefore pivotAfter deltaRotation a ∈
      moveGroupItems groupIds pivotBefore pivotAfter deltaRotation items ∧
    moveGroupItem pivotBefore pivotAfter deltaRotation b ∈
      moveGroupItems groupIds pivotBefore pivotAfter deltaRotation items ∧
    (moveGroupItem pivotBefore pivotAfter deltaRotation a).x =
      pivotAfter.x +
        (rotatePointLocal (a.x - pivotBefore.x) (a.y - pivotBefore.y) deltaRotation).x ∧
    (moveGroupItem pivotBefore pivotAfter deltaRotation a).y =
      pivotAfter.y +
        (rotatePointLocal (a.x - pivotBefore.x) (a.y - pivotBefore.y) deltaRotation).y ∧
    (moveGroupItem pivotBefore pivotAfter deltaRotation a).rotationDeg =
      normalizeAngle (a.rotationDeg + deltaRotation) ∧
    hypot ((moveGroupItem pivotBefore pivotAfter deltaRotation a).x -
        (moveGroupItem pivotBefore pivotAfter deltaRotation b).x)
      ((moveGroupItem pivotBefore pivotAfter deltaRotation a).y -
        (moveGroupItem pivotBefore pivotAfter deltaRotation b).y) =
      hypot (a.x - b.x) (a.y - b.y) ∧
    ∃ k : ℤ, (moveGroupItem pivotBefore pivotAfter deltaRotation a).rotationDeg -
        (moveGroupItem pivotBefore pivotAfter deltaRotation b).rotationDeg =
      a.rotationDeg - b.rotationDeg + 360 * k := by
  refine ⟨moveGroupItems_mem groupIds pivotBefore pivotAfter deltaRotation items a ha hga,
    moveGroupItems_mem groupIds pivotBefore pivotAfter deltaRotation items b hb hgb,
    moveGroupItem_x pivotBefore pivotAfter deltaRotation a,
    moveGroupItem_y pivotBefore pivotAfter deltaRotation a,
    moveGroupItem_rotation pivotBefore pivotAfter deltaRotation a, ?_,
    moveGroupItem_rot_diff pivotBefore pivotAfter deltaRotation a b⟩
  unfold hypot
  rw [moveGroupItem_dist_sq]

/-- Witness for C5 at a concrete two-item group move. -/
theorem c5_witness :
    moveGroupItem ⟨0, 0⟩ ⟨5, 5⟩ 90 itemA ∈
      moveGroupItems [("A"), ("B")] ⟨0, 0⟩ ⟨5, 5⟩ 90 [itemA, itemB] ∧
    moveGroupItem ⟨0, 0⟩ ⟨5, 5⟩ 90 itemB ∈
      moveGroupItems [("A"), ("B")] ⟨0, 0⟩ ⟨5, 5⟩ 90 [itemA, itemB] ∧
    (moveGroupItem ⟨0, 0⟩ ⟨5, 5⟩ 90 itemA).x =
      (⟨5, 5⟩ : Vec2).x + (rotatePointLocal (itemA.x - (⟨0, 0⟩ : Vec2).x)
        (itemA.y - (⟨0, 0⟩ : Vec2).y) 90).x ∧
    (moveGroupItem ⟨0, 0⟩ ⟨5, 5⟩ 90 itemA).y =
      (⟨5, 5⟩ : Vec2).y + (rotatePointLocal (itemA.x - (⟨0, 0⟩ : Vec2).x)
        (itemA.y - (⟨0, 0⟩ : Vec2).y) 90).y ∧
    (moveGroupItem ⟨0, 0⟩ ⟨5, 5⟩ 90 itemA).rotationDeg =
      normalizeAngle (itemA.rotationDeg + 90) ∧
    hypot ((moveGroupItem ⟨0, 0⟩ ⟨5, 5⟩ 90 itemA).x -
        (moveGroupItem ⟨0, 0⟩ ⟨5, 5⟩ 90 itemB).x)
      ((moveGroupItem ⟨0, 0⟩ ⟨5, 5⟩ 90 itemA).y -
        (moveGroupItem ⟨0, 0⟩ ⟨5, 5⟩ 90 itemB).y) =
      hypot (itemA.x - itemB.x) (itemA.y - itemB.y) ∧
    ∃ k : ℤ, (moveGroupItem ⟨0, 0⟩ ⟨5, 5⟩ 90 itemA).rotationDeg -
        (moveGroupItem ⟨0, 0⟩ ⟨5, 5⟩ 90 itemB).rotationDeg =
      itemA.rotationDeg - itemB.rotationDeg + 360 * k :=
  c5_group_move_preserves [("A"), ("B")] ⟨0, 0⟩ ⟨5, 5⟩ 90 [itemA, itemB] itemA itemB
    (List.mem_cons_self _ _) (List.mem_cons_of_mem _ (List.mem_cons_self _ _))
    (by decide) (by decide)

/-- C6: if any member of an item's connected group is grounded, both the
drag operation and the rotate operation applied to that item return the
layout unchanged. -/
theorem c6_grounded_group_immovable (L : LayoutState) (ts : TrackSystemDefinition)
    (memberId : String) (delta : Vec2) (selEps : List EndpointRef) (deltaDeg : ℝ)
    (h : ∃ g ∈ getConnectedGroupIds L memberId, isItemGrounded L g = true) :
    dragOperation L ts memberId delta = L ∧
    rotateSelected L ts (some memberId) selEps deltaDeg = L := by
  obtain ⟨g, hg, hgr⟩ := h
  exact ⟨dragOperation_noop L ts memberId delta ⟨g, hg, hgr⟩,
    rotateSelected_noop L ts selEps deltaDeg memberId
      (grounded_member_cases L memberId g hg hgr)⟩

def itemBg : PlacedItem :=
  { id := "B", trackSystemId := "piko", componentId := "S100",
    x := 100, y := 0, rotationDeg := 0, isGrounded := some true }

def itemC : PlacedItem :=
  { id := "C", trackSystemId := "piko", componentId := "S100",
    x := 200, y := 0, rotationDeg := 0 }

def connBC : EndpointConnection := ⟨⟨"B", "end"⟩, ⟨"C", "start"⟩⟩

/-- Three-item chain A - B - C with the middle item grounded. -/
def chainLayout : LayoutState :=
  { activeTrackSystemId := some "piko", trackSystems := [demoTS],
    placedItems := [itemA, itemBg, itemC], connections := [connAB, connBC], shapes := [] }

/-- Witness for C6: grounding the middle of a three-item chain freezes drag
and rotate on the end item A. -/
theorem c6_witness :
    dragOperation chainLayout demoTS ("A") ⟨7, 3⟩ = chainLayout ∧
    rotateSelected chainLayout demoTS (some ("A")) [] 45 = chainLayout :=
  c6_grounded_group_immovable chainLayout demoTS ("A") ⟨7, 3⟩ [] 45
    ⟨("B"), by decide, by decide⟩

/-! ## Import-validation payloads for C7 -/

def rawGoodComponent : RawComponent :=
  { id := some "S100", label := some "S100", typeTag := some "straight",
    lengthMm := some 100 }

def rawGoodSystem : RawTrackSystem :=
  { id := some "piko", name := some "PIKO A", scale := some "H0", ratioValue := some 87,
    gaugeMm := some 16.5, parallelSpacingMm := some 61.88, moduleLengthMm := some 239,
    components := some [rawGoodComponent] }

def rawGoodItem : RawPlacedItem :=
  { id := some "A", trackSystemId := some "piko", componentId := some "S100",
    x := some 0, y := some 0, rotationDeg := some 0 }

/-- A placed-item record with a non-finite x coordinate (a non-finite JSON
number is modelled as an absent value). -/
def rawBadItem : RawPlacedItem :=
  { id := some "N", trackSystemId := some "piko", componentId := some "S100",
    x := none, y := some 0, rotationDeg := some 0 }

/-- A connection whose second endpoint references a placed item that does
not exist in the payload. -/
def rawGhostConnection : RawConnection :=
  { endpoints := some [{ itemId := some "A", connectorKey := some "end" },
                       { itemId := some "ghost", connectorKey := some "start" }] }

def rawDemoLayout : RawLayout :=
  { activeTrackSystemId := some "piko", trackSystems := some [rawGoodSystem],
    placedItems := some [rawGoodItem, rawBadItem],
    connections := some [rawGhostConnection], shapes := some [] }

def pikoSystem : TrackSystemDefinition :=
  { id := "piko", name := "PIKO A", scale := "H0", ratioValue := 87, gaugeMm := 16.5,
    parallelSpacingMm := 61.88, moduleLengthMm := 239, components := [straight100] }

def okDemoState : LayoutState :=
  { activeTrackSystemId := some "piko", trackSystems := [pikoSystem],
    placedItems := [itemA], connections := [], shapes := [] }

def rawDanglingItem : RawPlacedItem :=
  { id := some "D", trackSystemId := some "piko", componentId := some "S999",
    x := some 0, y := some 0, rotationDeg := some 0 }

def rawDanglingLayout : RawLayout :=
  { activeTrackSystemId := none, trackSystems := some [rawGoodSystem],
    placedItems := some [rawDanglingItem], connections := none, shapes := none }

/-- C7 counterexample: a payload containing a connection that references a
missing placed item and a placed-item record with a non-finite coordinate is
not rejected: `validateLayout` accepts it, silently dropping the bad
connection and the bad item. -/
theorem c7_counterexample :
    validateLayout (some rawDemoLayout) = .ok okDemoState ∧
    (∃ rawConn ∈ rawDemoLayout.connections.getD [], ∃ conn : EndpointConnection,
      validateConnection rawConn = some conn ∧
      conn.snd.itemId ∉
        ((rawDemoLayout.placedItems.getD []).filterMap validatePlacedItem).map
          (fun i => i.id)) ∧
    validatePlacedItem rawBadItem = none := by
  refine ⟨rfl, ?_, rfl⟩
  refine ⟨rawGhostConnection,
    show rawGhostConnection ∈ [rawGhostConnection] from List.mem_singleton.mpr rfl,
    ⟨⟨"A", "end"⟩, ⟨"ghost", "start"⟩⟩, rfl, by decide⟩

/-- C7 (amended): a successful import guarantees a non-empty track-system
list, no surviving placed item with a dangling component or track-system
reference, and no connection referencing a missing placed item (invalid
connections and invalid records are dropped rather than rejected); and the
payload is rejected whole whenever a surviving placed item dangles. -/
theorem c7_amended (candidate : Option RawLayout) :
    (∀ S : LayoutState, validateLayout candidate = .ok S →
      0 < S.trackSystems.length ∧
      (∀ item ∈ S.placedItems, itemIsDangling S.trackSystems item = false) ∧
      ∀ conn ∈ S.connections,
        conn.fst.itemId ∈ S.placedItems.map (fun i => i.id) ∧
        conn.snd.itemId ∈ S.placedItems.map (fun i => i.id)) ∧
    ∀ raw, candidate = some raw →
      ((raw.trackSystems.getD []).filterMap validateTrackSystem).length ≠ 0 →
      ((raw.placedItems.getD []).filterMap validatePlacedItem).any
        (itemIsDangling ((raw.trackSystems.getD []).filterMap validateTrackSystem)) = true →
      ∃ msg, validateLayout candidate = .error msg := by
  cases candidate with
  | none =>
    constructor
    · intro S h
      unfold validateLayout at h
      exact Except.noConfusion h
    · intro raw hr
      exact Option.noConfusion hr
  | some raw =>
    constructor
    · intro S h
      unfold validateLayout at h
      dsimp only at h
      by_cases hlen : ((raw.trackSystems.getD []).filterMap validateTrackSystem).length = 0
      · rw [if_pos hlen] at h
        exact Except.noConfusion h
      · rw [if_neg hlen] at h
        by_cases hdang : ((raw.placedItems.getD []).filterMap validatePlacedItem).any
            (itemIsDangling ((raw.trackSystems.getD []).filterMap validateTrackSystem)) = true
        · rw [if_pos hdang] at h
          exact Except.noConfusion h
        · rw [if_neg hdang] at h
          injection h with h1
          subst h1
          refine ⟨Nat.pos_of_ne_zero hlen, ?_, ?_⟩
          · intro item hitem
            dsimp only at hitem ⊢
            cases hb : itemIsDangling
                ((raw.trackSystems.getD []).filterMap validateTrackSystem) item with
            | false => rfl
            | true => exact absurd (List.any_eq_true.mpr ⟨item, hitem, hb⟩) hdang
          · intro conn hconn
            dsimp only at hconn ⊢
            rw [List.mem_filter] at hconn
            exact of_decide_eq_true hconn.2
    · intro raw' hr hne hdang
      injection hr with hr1
      subst hr1
      refine ⟨("Placed items reference missing track systems or components."), ?_⟩
      unfold validateLayout
      dsimp only
      rw [if_neg hne, if_pos hdang]

/-- Witness for C7: the accepted demo payload satisfies the import
invariants, and a payload with a dangling placed item is rejected. -/
theorem c7_witness :
    (0 < okDemoState.trackSystems.length ∧
      (∀ item ∈ okDemoState.placedItems,
        itemIsDangling okDemoState.trackSystems item = false) ∧
      ∀ conn ∈ okDemoState.connections,
        conn.fst.itemId ∈ okDemoState.placedItems.map (fun i => i.id) ∧
        conn.snd.itemId ∈ okDemoState.placedItems.map (fun i => i.id)) ∧
    ∃ msg, validateLayout (some rawDanglingLayout) = .error msg :=
  ⟨(c7_amended (some rawDemoLayout)).1 okDemoState rfl,
   (c7_amended (some rawDanglingLayout)).2 rawDanglingLayout rfl (by decide) (by decide)⟩

/-! ## Case analysis of the connect operation (for C4) -/

lemma chooseFixedMoving_spec (L : LayoutState) (sid : Option String) (a b : EndpointRef) :
    (chooseFixedMoving L [a, b] sid a b = (a, b) ∨
     chooseFixedMoving L [a, b] sid a b = (b, a)) ∧
    (¬(isItemGrounded L a.itemId = true ∧ isItemGrounded L b.itemId = true) →
      isItemGrounded L (chooseFixedMoving L [a, b] sid a b).2.itemId = false) := by
  unfold chooseFixedMoving
  dsimp only
  cases hga : isItemGrounded L a.itemId with
  | true =>
    cases hgb : isItemGrounded L b.itemId with
    | true =>
      rw [if_neg (by decide), if_neg (by decide)]
      by_cases h3 : (getConnectedGroupIds L a.itemId).length >
          (getConnectedGroupIds L b.itemId).length
      · rw [if_pos h3]
        exact ⟨Or.inl rfl, fun hgr => absurd ⟨rfl, rfl⟩ hgr⟩
      · rw [if_neg h3]
        by_cases h4 : (getConnectedGroupIds L b.itemId).length >
            (getConnectedGroupIds L a.itemId).length
        · rw [if_pos h4]
          exact ⟨Or.inr rfl, fun hgr => absurd ⟨rfl, rfl⟩ hgr⟩
        · rw [if_neg h4]
          cases sid with
          | none =>
            dsimp only
            rw [Option.getD_none, if_pos (rfl : a = a)]
            exact ⟨Or.inr rfl, fun hgr => absurd ⟨rfl, rfl⟩ hgr⟩
          | some s =>
            dsimp only
            cases hfind : List.find? (fun ep => ep.itemId == s) [a, b] with
            | none =>
              rw [Option.getD_none, if_pos (rfl : a = a)]
              exact ⟨Or.inr rfl, fun hgr => absurd ⟨rfl, rfl⟩ hgr⟩
            | some r =>
              rw [Option.getD_some]
              have hmem := List.mem_of_find?_eq_some hfind
              simp only [List.mem_cons, List.not_mem_nil, or_false] at hmem
              rcases hmem with rfl | rfl
              · rw [if_pos (rfl : r = r)]
                exact ⟨Or.inr rfl, fun hgr => absurd ⟨rfl, rfl⟩ hgr⟩
              · by_cases hba : r = a
                · rw [if_pos hba, hba]
                  exact ⟨Or.inr rfl, fun hgr => absurd ⟨rfl, rfl⟩ hgr⟩
                · rw [if_neg hba]
                  exact ⟨Or.inl rfl, fun hgr => absurd ⟨rfl, rfl⟩ hgr⟩
    | false =>
      rw [if_pos (by decide)]
      exact ⟨Or.inl rfl, fun _ => hgb⟩
  | false =>
    cases hgb : isItemGrounded L b.itemId with
    | true =>
      rw [if_neg (by decide), if_pos (by decide)]
      exact ⟨Or.inr rfl, fun _ => hga⟩
    | false =>
      rw [if_neg (by decide), if_neg (by decide)]
      by_cases h3 : (getConnectedGroupIds L a.itemId).length >
          (getConnectedGroupIds L b.itemId).length
      · rw [if_pos h3]
        exact ⟨Or.inl rfl, fun _ => hgb⟩
      · rw [if_neg h3]
        by_cases h4 : (getConnectedGroupIds L b.itemId).length >
            (getConnectedGroupIds L a.itemId).length
        · rw [if_pos h4]
          exact ⟨Or.inr rfl, fun _ => hga⟩
        · rw [if_neg h4]
          cases sid with
          | none =>
            dsimp only
            rw [Option.getD_none, if_pos (rfl : a = a)]
            exact ⟨Or.inr rfl, fun _ => hga⟩
          | some s =>
            dsimp only
            cases hfind : List.find? (fun ep => ep.itemId == s) [a, b] with
            | none =>
              rw [Option.getD_none, if_pos (rfl : a = a)]
              exact ⟨Or.inr rfl, fun _ => hga⟩
            | some r =>
              rw [Option.getD_some]
              have hmem := List.mem_of_find?_eq_some hfind
              simp only [List.mem_cons, List.not_mem_nil, or_false] at hmem
              rcases hmem with rfl | rfl
              · rw [if_pos (rfl : r = r)]
                exact ⟨Or.inr rfl, fun _ => hga⟩
              · by_cases hba : r = a
                · rw [if_pos hba, hba]
                  exact ⟨Or.inr rfl, fun _ => hga⟩
                · rw [if_neg hba]
                  exact ⟨Or.inl rfl, fun _ => hgb⟩

/-- Dichotomy for the connect operation: it either returns the layout
unchanged or commits, and a commit certifies the full success path —
distinct ungrounded-moving endpoints, resolvable items, geometries and
connectors, both endpoints free and a width mismatch of at most 1e-3. -/
lemma connect_result_cases (L : LayoutState) (ts : TrackSystemDefinition)
    (sid : Option String) (a b : EndpointRef) :
    connectSelectedEndpoints L ts [a, b] sid = L ∨
    ∃ fixedRef movingRef : EndpointRef, ∃ fixedItem movingItem : PlacedItem,
    ∃ fixedGeom movingGeom : ComponentGeometry, ∃ fixedConn movingConn : TrackConnector,
      ((fixedRef = a ∧ movingRef = b) ∨ (fixedRef = b ∧ movingRef = a)) ∧
      a.itemId ≠ b.itemId ∧
      isItemGrounded L movingRef.itemId = false ∧
      L.placedItems.find? (fun i => i.id == fixedRef.itemId) = some fixedItem ∧
      L.placedItems.find? (fun i => i.id == movingRef.itemId) = some movingItem ∧
      fixedItem.trackSystemId = ts.id ∧
      movingItem.trackSystemId = ts.id ∧
      geometryFor ts fixedItem.componentId = some fixedGeom ∧
      geometryFor ts movingItem.componentId = some movingGeom ∧
      getConnectorByKey fixedGeom fixedRef.connectorKey = some fixedConn ∧
      getConnectorByKey movingGeom movingRef.connectorKey = some movingConn ∧
      isEndpointConnected L fixedRef.itemId fixedRef.connectorKey = false ∧
      isEndpointConnected L movingRef.itemId movingRef.connectorKey = false ∧
      |fixedConn.widthMm - movingConn.widthMm| ≤ 1 / 1000 := by
  obtain ⟨fR, mR, hcf⟩ : ∃ p q, chooseFixedMoving L [a, b] sid a b = (p, q) := ⟨_, _, rfl⟩
  have hperm := (chooseFixedMoving_spec L sid a b).1
  rw [hcf] at hperm
  simp only [Prod.mk.injEq] at hperm
  unfold connectSelectedEndpoints
  dsimp only
  by_cases hab : a.itemId = b.itemId
  · rw [if_pos hab]
    exact Or.inl rfl
  · rw [if_neg hab, hcf]
    dsimp only
    by_cases hmf : mR.itemId = fR.itemId
    · rw [if_pos hmf]
      exact Or.inl rfl
    · rw [if_neg hmf]
      cases hgr : isItemGrounded L mR.itemId with
      | true =>
        rw [if_pos rfl]
        exact Or.inl rfl
      | false =>
        rw [if_neg (by decide)]
        cases hfF : L.placedItems.find? (fun i => i.id == fR.itemId) with
        | none =>
          cases hfM : L.placedItems.find? (fun i => i.id == mR.itemId) with
          | none => exact Or.inl rfl
          | some mi => exact Or.inl rfl
        | some fi =>
          cases hfM : L.placedItems.find? (fun i => i.id == mR.itemId) with
          | none => exact Or.inl rfl
          | some mi =>
            dsimp only
            by_cases hts : fi.trackSystemId ≠ ts.id ∨ mi.trackSystemId ≠ ts.id
            · rw [if_pos hts]
              exact Or.inl rfl
            · rw [if_neg hts]
              obtain ⟨hts1, hts2⟩ := not_or.mp hts
              rw [not_ne_iff] at hts1 hts2
              cases hgF : geometryFor ts fi.componentId with
              | none =>
                cases hgM : geometryFor ts mi.componentId with
                | none => exact Or.inl rfl
                | some mg => exact Or.inl rfl
              | some fg =>
                cases hgM : geometryFor ts mi.componentId with
                | none => exact Or.inl rfl
                | some mg =>
                  dsimp only
                  cases hcF : getConnectorByKey fg fR.connectorKey with
                  | none =>
                    cases hcM : getConnectorByKey mg mR.connectorKey with
                    | none => exact Or.inl rfl
                    | some mc => exact Or.inl rfl
                  | some fc =>
                    cases hcM : getConnectorByKey mg mR.connectorKey with
                    | none => exact Or.inl rfl
                    | some mc =>
                      dsimp only
                      cases hconnF : isEndpointConnected L fR.itemId fR.connectorKey with
                      | true =>
                        rw [if_pos (by simp)]
                        exact Or.inl rfl
                      | false =>
                        cases hconnM : isEndpointConnected L mR.itemId mR.connectorKey with
                        | true =>
                          rw [if_pos (by decide)]
                          exact Or.inl rfl
                        | false =>
                          rw [if_neg (by decide)]
                          by_cases hw : |fc.widthMm - mc.widthMm| > 1 / 1000
                          · rw [if_pos hw]
                            exact Or.inl rfl
                          · rw [if_neg hw]
                            exact Or.inr ⟨fR, mR, fi, mi, fg, mg, fc, mc, hperm, hab,
                              hgr, hfF, hfM, hts1, hts2, hgF, hgM, hcF, hcM, hconnF,
                              hconnM, not_lt.mp hw⟩

/-- C4 (amended): the connect operation is a no-op when the two endpoints
share an item, when either endpoint is already connected, or when the
resolved connectors' widths differ by more than 1e-3 mm; and when the
endpoints are resolvable, free, width-compatible and not both grounded it
appends exactly one new connection between them.  (Both sides grounded is a
further no-op case the claim omits; see the counterexample.) -/
theorem c4_amended (L : LayoutState) (ts : TrackSystemDefinition)
    (sid : Option String) (a b : EndpointRef) :
    (a.itemId = b.itemId → connectSelectedEndpoints L ts [a, b] sid = L) ∧
    ((isEndpointConnected L a.itemId a.connectorKey = true ∨
      isEndpointConnected L b.itemId b.connectorKey = true) →
      connectSelectedEndpoints L ts [a, b] sid = L) ∧
    (∀ ia ib : PlacedItem, ∀ ga gb : ComponentGeometry, ∀ ca cb : TrackConnector,
      L.placedItems.find? (fun i => i.id == a.itemId) = some ia →
      L.placedItems.find? (fun i => i.id == b.itemId) = some ib →
      geometryFor ts ia.componentId = some ga →
      geometryFor ts ib.componentId = some gb →
      getConnectorByKey ga a.connectorKey = some ca →
      getConnectorByKey gb b.connectorKey = some cb →
      |ca.widthMm - cb.widthMm| > 1 / 1000 →
      connectSelectedEndpoints L ts [a, b] sid = L) ∧
    (∀ ia ib : PlacedItem, ∀ ga gb : ComponentGeometry, ∀ ca cb : TrackConnector,
      a.itemId ≠ b.itemId →
      L.placedItems.find? (fun i => i.id == a.itemId) = some ia →
      L.placedItems.find? (fun i => i.id == b.itemId) = some ib →
      ia.trackSystemId = ts.id →
      ib.trackSystemId = ts.id →
      geometryFor ts ia.componentId = some ga →
      geometryFor ts ib.componentId = some gb →
      getConnectorByKey ga a.connectorKey = some ca →
      getConnectorByKey gb b.connectorKey = some cb →
      isEndpointConnected L a.itemId a.connectorKey = false →
      isEndpointConnected L b.itemId b.connectorKey = false →
      |ca.widthMm - cb.widthMm| ≤ 1 / 1000 →
      ¬(isItemGrounded L a.itemId = true ∧ isItemGrounded L b.itemId = true) →
      ∃ newConn : EndpointConnection,
        (newConn = ⟨a, b⟩ ∨ newConn = ⟨b, a⟩) ∧
        (connectSelectedEndpoints L ts [a, b] sid).connections =
          L.connections ++ [newConn]) := by
  refine ⟨?_, ?_, ?_, ?_⟩
  · intro h
    unfold connectSelectedEndpoints
    dsimp only
    rw [if_pos h]
  · intro h
    rcases connect_result_cases L ts sid a b with hL |
      ⟨fR, mR, fi, mi, fg, mg, fc, mc, hperm, hab, hgr, hfF, hfM, hts1, hts2,
        hgF, hgM, hcF, hcM, hconnF, hconnM, hwle⟩
    · exact hL
    · exfalso
      rcases hperm with ⟨rfl, rfl⟩ | ⟨rfl, rfl⟩
      · rcases h with h | h
        · rw [hconnF] at h
          exact Bool.false_ne_true h
        · rw [hconnM] at h
          exact Bool.false_ne_true h
      · rcases h with h | h
        · rw [hconnM] at h
          exact Bool.false_ne_true h
        · rw [hconnF] at h
          exact Bool.false_ne_true h
  · intro ia ib ga gb ca cb hfa hfb hga' hgb' hca hcb hwgt
    rcases connect_result_cases L ts sid a b with hL |
      ⟨fR, mR, fi, mi, fg, mg, fc, mc, hperm, hab, hgr, hfF, hfM, hts1, hts2,
        hgF, hgM, hcF, hcM, hconnF, hconnM, hwle⟩
    · exact hL
    · exfalso
      rcases hperm with ⟨rfl, rfl⟩ | ⟨rfl, rfl⟩
      · rw [hfa] at hfF
        injection hfF with he1
        subst he1
        rw [hfb] at hfM
        injection hfM with he2
        subst he2
        rw [hga'] at hgF
        injection hgF with he3
        subst he3
        rw [hgb'] at hgM
        injection hgM with he4
        subst he4
        rw [hca] at hcF
        injection hcF with he5
        subst he5
        rw [hcb] at hcM
        injection hcM with he6
        subst he6
        exact absurd hwle (not_le.mpr hwgt)
      · rw [hfb] at hfF
        injection hfF with he1
        subst he1
        rw [hfa] at hfM
        injection hfM with he2
        subst he2
        rw [hgb'] at hgF
        injection hgF with he3
        subst he3
        rw [hga'] at hgM
        injection hgM with he4
        subst he4
        rw [hcb] at hcF
        injection hcF with he5
        subst he5
        rw [hca] at hcM
        injection hcM with he6
        subst he6
        rw [abs_sub_comm] at hwle
        exact absurd hwle (not_le.mpr hwgt)
  · intro ia ib ga gb ca cb hne hfa hfb htsa htsb hga' hgb' hca hcb hconna hconnb hwle hgr
    obtain ⟨fR, mR, hcf⟩ : ∃ p q, chooseFixedMoving L [a, b] sid a b = (p, q) := ⟨_, _, rfl⟩
    obtain ⟨hperm, hmgr⟩ := chooseFixedMoving_spec L sid a b
    have hmgr' := hmgr hgr
    rw [hcf] at hperm hmgr'
    simp only [Prod.mk.injEq] at hperm
    dsimp only at hmgr'
    rcases hperm with ⟨rfl, rfl⟩ | ⟨rfl, rfl⟩
    · refine ⟨⟨fR, mR⟩, Or.inl rfl, ?_⟩
      unfold connectSelectedEndpoints
      dsimp only
      rw [if_neg hne, hcf]
      dsimp only
      rw [if_neg (fun hh => hne hh.symm), if_neg (by simp [hmgr']), hfa, hfb]
      dsimp only
      rw [if_neg (by simp [htsa, htsb]), hga', hgb']
      dsimp only
      rw [hca, hcb]
      dsimp only
      rw [if_neg (by simp [hconna, hconnb]), if_neg (not_lt.mpr hwle)]
    · refine ⟨⟨fR, mR⟩, Or.inr rfl, ?_⟩
      have hwle' : |cb.widthMm - ca.widthMm| ≤ 1 / 1000 := by
        rw [abs_sub_comm]
        exact hwle
      unfold connectSelectedEndpoints
      dsimp only
      rw [if_neg hne, hcf]
      dsimp only
      rw [if_neg hne, if_neg (by simp [hmgr']), hfb, hfa]
      dsimp only
      rw [if_neg (by simp [htsa, htsb]), hgb', hga']
      dsimp only
      rw [hcb, hca]
      dsimp only
      rw [if_neg (by simp [hconna, hconnb]), if_neg (not_lt.mpr hwle')]

def itemG1 : PlacedItem :=
  { id := "G1", trackSystemId := "piko", componentId := "S100",
    x := 0, y := 0, rotationDeg := 0, isGrounded := some true }

def itemG2 : PlacedItem :=
  { id := "G2", trackSystemId := "piko", componentId := "S100",
    x := 1000, y := 0, rotationDeg := 0, isGrounded := some true }

/-- Two unconnected, width-compatible straights, both grounded. -/
def groundedLayout : LayoutState :=
  { activeTrackSystemId := some "piko", trackSystems := [demoTS],
    placedItems := [itemG1, itemG2], connections := [], shapes := [] }

/-- Two unconnected, ungrounded straights far apart. -/
def freeLayout : LayoutState :=
  { activeTrackSystemId := some "piko", trackSystems := [demoTS],
    placedItems := [itemA, itemB], connections := [], shapes := [] }

/-- C4 counterexample: none of the claim's three failure conditions holds —
distinct items, both endpoints free, equal connector widths — yet the
connect operation appends nothing because both items are grounded, a
fourth no-op case the claim omits. -/
theorem c4_counterexample :
    (⟨("G1"), ("end")⟩ : EndpointRef).itemId ≠ (⟨("G2"), ("start")⟩ : EndpointRef).itemId ∧
    isEndpointConnected groundedLayout ("G1") ("end") = false ∧
    isEndpointConnected groundedLayout ("G2") ("start") = false ∧
    getConnectorByKey (getComponentGeometry straight100) ("end") =
      some (makeConnector 100 0 0) ∧
    getConnectorByKey (getComponentGeometry straight100) ("start") =
      some (makeConnector 0 0 180) ∧
    |(makeConnector 100 0 0).widthMm - (makeConnector 0 0 180).widthMm| ≤ 1 / 1000 ∧
    connectSelectedEndpoints groundedLayout demoTS
      [⟨("G1"), ("end")⟩, ⟨("G2"), ("start")⟩] none = groundedLayout := by
  refine ⟨by decide, rfl, rfl, rfl, rfl, ?_, ?_⟩
  · rw [makeConnector_widthMm, makeConnector_widthMm, sub_self, abs_zero]
    norm_num
  · rfl

/-- Witness for C4: connecting two free straights appends exactly one
connection. -/
theorem c4_witness :
    ∃ newConn : EndpointConnection,
      (newConn = ⟨⟨("A"), ("end")⟩, ⟨("B"), ("start")⟩⟩ ∨
       newConn = ⟨⟨("B"), ("start")⟩, ⟨("A"), ("end")⟩⟩) ∧
      (connectSelectedEndpoints freeLayout demoTS
          [⟨("A"), ("end")⟩, ⟨("B"), ("start")⟩] none).connections =
        freeLayout.connections ++ [newConn] :=
  (c4_amended freeLayout demoTS none ⟨("A"), ("end")⟩ ⟨("B"), ("start")⟩).2.2.2
    itemA itemB (getComponentGeometry straight100) (getComponentGeometry straight100)
    (makeConnector 100 0 0) (makeConnector 0 0 180)
    (by decide) rfl rfl rfl rfl rfl rfl rfl rfl rfl rfl
    (by rw [makeConnector_widthMm, makeConnector_widthMm, sub_self, abs_zero]; norm_num)
    (by decide)
